import Mathlib

/-
Shallow embedding of the ETA-Touch dashboard prototypes (three near-duplicate
variants of a polling sync engine):

* Variant A: the `performSync` component at the top of `src/index.tsx`.
* Variant B: the `fetchData` component at the bottom of `src/index.tsx`.
* Variant C: the `fetchCycle` component in `src/unnamed/part_003`.

Stateful React code is embedded as explicit state passing: each `useState`
cell becomes a field of a state record, `setX` becomes a functional update,
and the async sync function is split at its `await` point into a `begin`
step (the synchronous prefix: guard check, flag set, pre-request logging)
and a `finish` step (the continuation after the awaited latency / fetch).
`Math.random()` calls become rational parameters in `[0, 1)`; wall-clock
timestamps become natural-number ticks supplied by the caller; the network
outcome of a live fetch becomes an explicit value.  The ghost counters
`started`, `finished` and `fetchCount` observe, respectively, how many
cycles have begun, how many have completed, and how many network requests
have been issued; they mirror the corresponding events in the source and
exist only so that in-flight and request counts are statable.
-/

set_option linter.unusedVariables false

/-- Severity of a UI log entry; the source uses the literal tags
info, success, warning, error. -/
inductive Severity where
  | info
  | success
  | warning
  | error
deriving DecidableEq

/-- One log entry: the source stores a locale time string, a message and a
severity tag; wall-clock time is modelled as a natural tick. -/
structure LogEntry where
  time : Nat
  msg : String
  type : Severity
deriving DecidableEq

/-- One history-buffer point; all three variants store exactly the fields
time, boiler and outside (the charted metrics). -/
structure HistPoint where
  time : Nat
  boiler : ℚ
  outside : ℚ
deriving DecidableEq

/-- A JS value stored at a tree node: the sources mix string values
(from toFixed) and numeric values (e.g. the pellet stock 2450). -/
inductive JSVal where
  | str (s : String)
  | num (q : ℚ)
deriving DecidableEq

/-- A parameter-tree node: name, optional value, optional unit, children. -/
inductive Node where
  | mk (name : String) (value : Option JSVal) (unit : Option String)
      (children : List Node)

/-- Leaf helper for the mock trees: a named value with a unit and no
children. -/
def leaf (name : String) (v : JSVal) (u : String) : Node :=
  .mk name (some v) (some u) []

/-- Group helper for the mock trees: a named node with children only. -/
def group (name : String) (cs : List Node) : Node :=
  .mk name none none cs

/-- JS `list.slice(-cap)`: the last `min cap list.length` elements. -/
def sliceLast (cap : Nat) (l : List α) : List α :=
  l.drop (l.length - cap)

/-- JS `[entry, ...prev].slice(0, cap)`: prepend then truncate to `cap`. -/
def addCapped (cap : Nat) (e : α) (l : List α) : List α :=
  (e :: l).take cap

/-- `Number(x.toFixed(1))`: round to one decimal place (JS rounds ties on
positive values upward, matching `round`). -/
def toFixed1 (q : ℚ) : ℚ :=
  (round (q * 10) : ℤ) / 10

/-- `x.toFixed(1)` as the displayed string, for the positive values that
occur in the mock data. -/
def fmt1 (q : ℚ) : String :=
  let m : ℤ := round (q * 10)
  toString (m / 10) ++ "." ++ toString (m % 10).natAbs

/-- `x.toFixed(0)` as the displayed string. -/
def fmt0 (q : ℚ) : String :=
  toString (round q : ℤ)

/-- Does a log entry have severity error? -/
def isErrorEntry (l : LogEntry) : Bool :=
  match l.type with
  | .error => true
  | _ => false

/-- Does a log entry report a cycle outcome (success or error)? -/
def isOutcomeEntry (l : LogEntry) : Bool :=
  match l.type with
  | .success => true
  | .error => true
  | _ => false

/-- Number of error-severity entries in a log list. -/
def countError (ls : List LogEntry) : Nat :=
  ls.countP isErrorEntry

/-- Number of outcome (success-or-error) entries in a log list. -/
def countOutcome (ls : List LogEntry) : Nat :=
  ls.countP isOutcomeEntry

theorem sliceLast_length (cap : Nat) (l : List α) :
    (sliceLast cap l).length = min l.length cap := by
  simp [sliceLast]
  omega

theorem addCapped_length (cap : Nat) (e : α) (l : List α) :
    (addCapped cap e l).length = min (l.length + 1) cap := by
  simp [addCapped]
  omega

theorem addCapped_of_room (cap : Nat) (e : α) (l : List α)
    (h : l.length + 1 ≤ cap) : addCapped cap e l = e :: l := by
  unfold addCapped
  exact List.take_of_length_le (by simpa using h)

theorem sliceLast_absorb (cap : Nat) (l : List α) (a : α) :
    sliceLast cap (sliceLast cap l ++ [a]) = sliceLast cap (l ++ [a]) := by
  unfold sliceLast
  rcases le_or_lt (l.length + 1) cap with h | h
  · have h1 : l.length - cap = 0 := by omega
    rw [h1, List.drop_zero]
  · rcases Nat.eq_zero_or_pos cap with hc | hc
    · subst hc
      simp
    · have hlen : (l.drop (l.length - cap)).length = cap := by
        simp
        omega
      have h2 : (l.drop (l.length - cap) ++ [a]).length - cap = 1 := by
        rw [List.length_append, hlen]
        simp
      rw [h2, List.drop_append_of_le_length (by rw [hlen]; omega),
        List.drop_drop]
      have h3 : (l ++ [a]).length - cap = l.length + 1 - cap := by simp
      rw [h3,
        List.drop_append_of_le_length (by omega : l.length + 1 - cap ≤ l.length)]
      have h4 : l.length - cap + 1 = l.length + 1 - cap := by omega
      rw [h4]

/-- Variant A configuration (the DEFAULT_CONFIG shape in index.tsx):
base API URL, refresh interval in seconds, mock-mode flag. -/
structure ConfigA where
  apiUrl : String
  refreshInterval : Nat
  mockMode : Bool
deriving DecidableEq

/-- Variant A telemetry data cell (the data useState of ETAtouchApp):
flat numeric snapshot fields plus history, menu tree and alerts. -/
structure DataA where
  boilerTemp : ℚ
  outsideTemp : ℚ
  exhaustTemp : ℚ
  runtime : ℚ
  history : List HistPoint
  menuTree : Option Node
  alerts : List String

/-- Variant A component state: one field per useState cell, plus the
installed timer period and the ghost counters described in the header. -/
structure StateA where
  config : ConfigA
  logs : List LogEntry
  isSyncing : Bool
  lastUpdate : Option Nat
  data : DataA
  timerPeriod : Option Nat
  fetchCount : Nat
  started : Nat
  finished : Nat

/-- The DEFAULT_CONFIG constant of variant A. -/
def DEFAULT_CONFIG : ConfigA :=
  ⟨"https://pc.bravokilo.cloud", 10, true⟩

/-- Variant A initial state (the useState initialisers). -/
def initA : StateA where
  config := DEFAULT_CONFIG
  logs := []
  isSyncing := false
  lastUpdate := none
  data := ⟨68.4, 7.2, 135.0, 12450, [], none, []⟩
  timerPeriod := none
  fetchCount := 0
  started := 0
  finished := 0

/-- Variant A addLog: prepend a capped (50) log entry. -/
def addLogA (t : Nat) (msg : String) (ty : Severity) (s : StateA) : StateA :=
  { s with logs := addCapped 50 ⟨t, msg, ty⟩ s.logs }

/-- Variant A mock boiler generator: 65 + Math.random() * 10. -/
def boilerGenA (r : ℚ) : ℚ := 65 + r * 10

/-- Variant A mock outside generator: 5 + Math.random() * 5. -/
def outsideGenA (r : ℚ) : ℚ := 5 + r * 5

/-- Variant A synthesized parameter tree (menuTree literal in performSync). -/
def mockTreeA (nextBoiler : ℚ) : Node :=
  group "ETA PE-K 15" [
    group "Kessel" [
      leaf "Kessel-Temperatur" (.str (fmt1 nextBoiler)) "°C",
      leaf "Abgas-Temperatur" (.str "138.5") "°C",
      leaf "Kessel-Soll" (.str "75.0") "°C",
      leaf "Zündung Status" (.str "Ein") ""],
    group "Lagerung" [
      leaf "Vorrat Pellets" (.str "2450") "kg",
      leaf "Füllstand" (.str "65") "%"],
    group "Heizkreis 1" [
      leaf "Vorlauf-Ist" (.str "45.2") "°C",
      leaf "Vorlauf-Soll" (.str "48.0") "°C"]]

/-- Variant A pre-request info message. -/
def infoMsgA (url : String) : String :=
  "GET " ++ url ++ "/user/menu - Starte HTTP-Abruf..."

/-- Variant A success message. -/
def succMsgA : String := "Synchronisation erfolgreich. HTTP 200 OK."

/-- Variant A live-path error message (advises the proxy or mock mode). -/
def corsMsgA : String :=
  "Direkter API-Zugriff blockiert (CORS). Bitte PHP-Proxy oder Mock-Modus nutzen."

/-- Variant A synchronous prefix of performSync: the in-flight guard, the
flag set and the pre-request info log.  A trigger under the guard is the
identity (dropped, not queued). -/
def beginA (t : Nat) (s : StateA) : StateA :=
  if s.isSyncing then s
  else
    addLogA t (infoMsgA s.config.apiUrl) .info
      { s with isSyncing := true, started := s.started + 1 }

/-- Variant A continuation of performSync after the simulated latency:
the mock branch updates the data cell (spreading the previous data) and
logs success; the live branch only logs the CORS error; both clear the
in-flight flag (the finally block). -/
def finishA (t : Nat) (r1 r2 : ℚ) (s : StateA) : StateA :=
  if s.config.mockMode then
    let nextBoiler := boilerGenA r1
    let nextOutside := outsideGenA r2
    let s1 : StateA := { s with data := { s.data with
      boilerTemp := toFixed1 nextBoiler
      outsideTemp := toFixed1 nextOutside
      history := sliceLast 20 (s.data.history ++ [⟨t, nextBoiler, nextOutside⟩])
      menuTree := some (mockTreeA nextBoiler) } }
    let s2 : StateA := { s1 with lastUpdate := some t }
    let s3 := addLogA t succMsgA .success s2
    { s3 with isSyncing := false, finished := s3.finished + 1 }
  else
    let s1 := addLogA t corsMsgA .error s
    { s1 with isSyncing := false, finished := s1.finished + 1 }

/-- Variant A events: a sync trigger (mount, timer tick or manual button)
or the resumption of the in-flight cycle with its random draws. -/
inductive EvA where
  | trigger (t : Nat)
  | complete (t : Nat) (r1 : ℚ) (r2 : ℚ)

/-- Variant A event-loop step.  A completion only resumes an in-flight
cycle; with no cycle in flight there is no continuation to run. -/
def stepA : EvA → StateA → StateA
  | .trigger t, s => beginA t s
  | .complete t r1 r2, s => if s.isSyncing then finishA t r1 r2 s else s

/-- Run a sequence of variant A events. -/
def runA (evs : List EvA) (s : StateA) : StateA :=
  evs.foldl (fun s e => stepA e s) s

/-- One full variant A sync cycle: trigger immediately followed by its
completion at tick t. -/
def cycleA (t : Nat) (r1 r2 : ℚ) (s : StateA) : StateA :=
  stepA (.complete t r1 r2) (stepA (.trigger t) s)

/-- The history point appended by the i-th variant A mock cycle. -/
def histPtA (rs : Nat → ℚ × ℚ) (i : Nat) : HistPoint :=
  ⟨i, boilerGenA (rs i).1, outsideGenA (rs i).2⟩

/-- N consecutive variant A mock cycles from the initial state, cycle i
running at tick i with random draws rs i. -/
def runMockA (rs : Nat → ℚ × ℚ) : Nat → StateA
  | 0 => initA
  | n + 1 => cycleA n (rs n).1 (rs n).2 (runMockA rs n)

/-- Variant A configuration change: setConfig followed by the useEffect
re-run for deps (refreshInterval, apiUrl), which clears the old interval
and installs a new one at refreshInterval * 1000 ms.  The effect body's
immediate performSync() call is a separate trigger event. -/
def applyConfigA (c : ConfigA) (s : StateA) : StateA :=
  { s with config := c, timerPeriod := some (c.refreshInterval * 1000) }

/-- Number of variant A cycles in flight (ghost observation). -/
def inflightA (s : StateA) : Nat := s.started - s.finished

theorem cycleA_isSyncing (t : Nat) (r1 r2 : ℚ) (s : StateA)
    (h : s.isSyncing = false) : (cycleA t r1 r2 s).isSyncing = false := by
  by_cases hm : s.config.mockMode
  · simp [cycleA, stepA, beginA, finishA, addLogA, h, hm]
  · simp [cycleA, stepA, beginA, finishA, addLogA, h, hm]

theorem cycleA_config (t : Nat) (r1 r2 : ℚ) (s : StateA)
    (h : s.isSyncing = false) : (cycleA t r1 r2 s).config = s.config := by
  by_cases hm : s.config.mockMode
  · simp [cycleA, stepA, beginA, finishA, addLogA, h, hm]
  · simp [cycleA, stepA, beginA, finishA, addLogA, h, hm]

theorem cycleA_history_mock (t : Nat) (r1 r2 : ℚ) (s : StateA)
    (h : s.isSyncing = false) (hm : s.config.mockMode = true) :
    (cycleA t r1 r2 s).data.history
      = sliceLast 20 (s.data.history ++ [⟨t, boilerGenA r1, outsideGenA r2⟩]) := by
  simp [cycleA, stepA, beginA, finishA, addLogA, h, hm]

/-- Variant B data mode: mock or live. -/
inductive ModeB where
  | mock
  | live
deriving DecidableEq

/-- Variant B metrics record (the metrics object of the data cell). -/
structure MetricsB where
  boiler : ℚ
  outside : ℚ
  exhaust : ℚ
  bufferTop : ℚ
  bufferBottom : ℚ
  pellets : ℚ
deriving DecidableEq

/-- Body of a live-mode response as far as fetchData accesses it: the
metrics object may be absent (the malformed-response case, in which the
source's jsonData.metrics.boiler access faults) and the tree list. -/
structure BodyB where
  metrics : Option MetricsB
  tree : List Node

/-- Variant B data cell: metrics, history and tree. -/
structure DataB where
  metrics : MetricsB
  history : List HistPoint
  tree : List Node

/-- Outcome of a live-mode fetch: a rejected promise (network failure,
carrying the runtime error message) or a response with its HTTP status
and parsed body. -/
inductive NetOutcome where
  | failed (msg : String)
  | resp (status : Nat) (body : BodyB)

/-- The five Math.random() draws of one variant B mock cycle. -/
structure RandsB where
  r1 : ℚ
  r2 : ℚ
  r3 : ℚ
  r4 : ℚ
  r5 : ℚ

/-- Variant B component state: one field per useState cell, plus the
installed timer period and the ghost counters. -/
structure StateB where
  mode : ModeB
  apiUrl : String
  refreshInterval : Nat
  lastSync : Option Nat
  isSyncing : Bool
  logs : List LogEntry
  data : DataB
  timerPeriod : Option Nat
  fetchCount : Nat
  started : Nat
  finished : Nat

/-- The DEFAULT_API_URL constant of variant B. -/
def DEFAULT_API_URL : String := "https://pc.bravokilo.cloud"

/-- Variant B initial state (the useState initialisers). -/
def initB : StateB where
  mode := .mock
  apiUrl := DEFAULT_API_URL
  refreshInterval := 10
  lastSync := none
  isSyncing := false
  logs := []
  data := ⟨⟨0, 0, 0, 0, 0, 0⟩, [], []⟩
  timerPeriod := none
  fetchCount := 0
  started := 0
  finished := 0

/-- Variant B addLog: prepend a capped (100) log entry. -/
def addLogB (t : Nat) (msg : String) (ty : Severity) (s : StateB) : StateB :=
  { s with logs := addCapped 100 ⟨t, msg, ty⟩ s.logs }

/-- Variant B mock metrics generator (the mockMetrics literal). -/
def mockMetricsB (rs : RandsB) : MetricsB :=
  ⟨60 + rs.r1 * 15, 5 + rs.r2 * 5, 140 + rs.r3 * 20,
    65 + rs.r4 * 5, 40 + rs.r5 * 5, 2450⟩

/-- Variant B synthesized parameter tree (the mockTree literal). -/
def mockTreeB (m : MetricsB) : List Node :=
  [group "ETA PE-K 15kW" [
    group "Kessel" [
      leaf "Kessel" (.str (fmt1 m.boiler)) "°C",
      leaf "Kessel Soll" (.str "70.0") "°C",
      leaf "Rücklauf" (.str "58.2") "°C",
      leaf "Abgas" (.str (fmt0 m.exhaust)) "°C",
      leaf "Gebläse" (.str "1850") "U/min"],
    group "Puffer" [
      leaf "Puffer Oben" (.str (fmt1 m.bufferTop)) "°C",
      leaf "Puffer Unten" (.str (fmt1 m.bufferBottom)) "°C",
      leaf "Ladezustand" (.str "68") "%"],
    group "Heizkreis" [
      leaf "Vorlauf" (.str "42.5") "°C",
      leaf "Außentemperatur" (.str (fmt1 m.outside)) "°C",
      leaf "Pumpe" (.str "Ein") ""],
    group "Lager" [
      leaf "Vorrat" (.num 2450) "kg",
      leaf "Verbrauch Gesamt" (.str "12500") "kg"]]]

/-- Message of the TypeError raised when jsonData.metrics is absent and
fetchData reads jsonData.metrics.boiler. -/
def jsonFaultMsg : String :=
  "Cannot read properties of undefined (reading 'boiler')"

/-- Variant B catch block: log the failure and run the finally block. -/
def catchB (t : Nat) (m : String) (s : StateB) : StateB :=
  let s1 := addLogB t ("Sync Failed: " ++ m) .error s
  { s1 with isSyncing := false, finished := s1.finished + 1 }

/-- Variant B synchronous prefix of fetchData: the in-flight guard, the
flag set and, in live mode, the pre-request info log and the single
fetch (counted by the ghost fetchCount). -/
def beginB (t : Nat) (s : StateB) : StateB :=
  if s.isSyncing then s
  else
    match s.mode with
    | .live =>
      addLogB t ("Fetching data from " ++ s.apiUrl ++ "/data.json") .info
        { s with
          isSyncing := true
          started := s.started + 1
          fetchCount := s.fetchCount + 1 }
    | .mock => { s with isSyncing := true, started := s.started + 1 }

/-- Variant B continuation of fetchData: live mode inspects the fetch
outcome (throwing on a non-2xx status, faulting on a body without
metrics, otherwise replacing the data wholesale from the body); mock
mode generates metrics and tree and appends history capped at 30; both
success paths set lastSync, and the finally block clears the flag. -/
def finishB (t : Nat) (rs : RandsB) (net : NetOutcome) (s : StateB) : StateB :=
  match s.mode with
  | .live =>
    match net with
    | .failed m => catchB t m s
    | .resp status body =>
      if 200 ≤ status ∧ status < 300 then
        match body.metrics with
        | none => catchB t jsonFaultMsg s
        | some m =>
          let s1 : StateB := { s with data :=
            { metrics := m
              tree := body.tree
              history := sliceLast 20
                (s.data.history ++ [⟨t, m.boiler, m.outside⟩]) } }
          let s2 := addLogB t "Data synced successfully from Server" .success s1
          let s3 : StateB := { s2 with lastSync := some t }
          { s3 with isSyncing := false, finished := s3.finished + 1 }
      else catchB t ("HTTP Error: " ++ toString status) s
  | .mock =>
    let m := mockMetricsB rs
    let s1 : StateB := { s with data :=
      { metrics := m
        tree := mockTreeB m
        history := sliceLast 30 (s.data.history ++ [⟨t, m.boiler, m.outside⟩]) } }
    let s2 := addLogB t "Mock data generated successfully" .success s1
    let s3 : StateB := { s2 with lastSync := some t }
    { s3 with isSyncing := false, finished := s3.finished + 1 }

/-- Variant B events: a sync trigger or the resumption of the in-flight
cycle with its random draws and fetch outcome. -/
inductive EvB where
  | trigger (t : Nat)
  | complete (t : Nat) (rs : RandsB) (net : NetOutcome)

/-- Variant B event-loop step. -/
def stepB : EvB → StateB → StateB
  | .trigger t, s => beginB t s
  | .complete t rs net, s => if s.isSyncing then finishB t rs net s else s

/-- Run a sequence of variant B events. -/
def runB (evs : List EvB) (s : StateB) : StateB :=
  evs.foldl (fun s e => stepB e s) s

/-- One full variant B sync cycle at tick t. -/
def cycleB (t : Nat) (rs : RandsB) (net : NetOutcome) (s : StateB) : StateB :=
  stepB (.complete t rs net) (stepB (.trigger t) s)

/-- The history point appended by the i-th variant B mock cycle. -/
def histPtB (rs : Nat → RandsB) (i : Nat) : HistPoint :=
  ⟨i, 60 + (rs i).r1 * 15, 5 + (rs i).r2 * 5⟩

/-- N consecutive variant B mock cycles from the initial state; mock mode
never looks at the network outcome, so a dummy one is passed. -/
def runMockB (rs : Nat → RandsB) : Nat → StateB
  | 0 => initB
  | n + 1 => cycleB n (rs n) (.failed "") (runMockB rs n)

/-- Variant B configuration change: the setters followed by the useEffect
re-run for deps (refreshInterval, mode, apiUrl). -/
def applyConfigB (url : String) (interval : Nat) (m : ModeB) (s : StateB) :
    StateB :=
  { s with
    apiUrl := url
    refreshInterval := interval
    mode := m
    timerPeriod := some (interval * 1000) }

/-- Number of variant B cycles in flight (ghost observation). -/
def inflightB (s : StateB) : Nat := s.started - s.finished

/-- Variant C telemetry data cell (the data useState of ETAtouchMonitor);
compared with variant A it has the extra boilerSoll field. -/
structure DataC where
  boilerTemp : ℚ
  outsideTemp : ℚ
  boilerSoll : ℚ
  exhaustTemp : ℚ
  runtime : ℚ
  history : List HistPoint
  menuTree : Option Node
  alerts : List String

/-- Variant C component state; the configuration record has the same
shape as variant A's, so ConfigA is reused as its type. -/
structure StateC where
  config : ConfigA
  logs : List LogEntry
  lastUpdate : Option Nat
  isSyncing : Bool
  data : DataC
  timerPeriod : Option Nat
  fetchCount : Nat
  started : Nat
  finished : Nat

/-- The INITIAL_CONFIG constant of variant C. -/
def INITIAL_CONFIG : ConfigA :=
  ⟨"https://pc.bravokilo.cloud", 30, true⟩

/-- Variant C initial state (the useState initialisers). -/
def initC : StateC where
  config := INITIAL_CONFIG
  logs := []
  lastUpdate := none
  isSyncing := false
  data := ⟨72.5, 8.2, 75.0, 142.0, 4521, [], none, []⟩
  timerPeriod := none
  fetchCount := 0
  started := 0
  finished := 0

/-- Variant C addLog: prepend a capped (50) log entry. -/
def addLogC (t : Nat) (msg : String) (ty : Severity) (s : StateC) : StateC :=
  { s with logs := addCapped 50 ⟨t, msg, ty⟩ s.logs }

/-- Variant C mock boiler generator: 70 + Math.random() * 5. -/
def boilerGenC (r : ℚ) : ℚ := 70 + r * 5

/-- Variant C mock outside generator: 5 + Math.random() * 3. -/
def outsideGenC (r : ℚ) : ℚ := 5 + r * 3

/-- Variant C synthesized parameter tree (menuTree literal in fetchCycle). -/
def mockTreeC (nextBoiler : ℚ) : Node :=
  group "ETAtouch System" [
    group "Kessel" [
      leaf "Kessel-Temperatur" (.str (fmt1 nextBoiler)) "°C",
      leaf "Abgas-Temperatur" (.str "145.0") "°C",
      leaf "Kessel-Soll" (.str "75.0") "°C"],
    group "Heizkreis 1" [
      leaf "Vorlauf-Ist" (.str "42.1") "°C",
      leaf "Vorlauf-Soll" (.str "45.0") "°C"]]

/-- Variant C pre-request info message. -/
def infoMsgC (url : String) : String :=
  "GET " ++ url ++ "/user/menu - Fetching data..."

/-- Variant C success message. -/
def succMsgC : String := "Database updated successfully. 200 OK"

/-- Variant C live-path error message (advises mock mode or the proxy). -/
def corsMsgC : String :=
  "CORS Restriction: Direct browser fetch blocked. Please use Mock Mode or Proxy."

/-- Variant C synchronous prefix of fetchCycle: guard, flag set and the
pre-request info log. -/
def beginC (t : Nat) (s : StateC) : StateC :=
  if s.isSyncing then s
  else
    addLogC t (infoMsgC s.config.apiUrl) .info
      { s with isSyncing := true, started := s.started + 1 }

/-- Variant C continuation of fetchCycle after the simulated latency:
mock branch (spreading the previous data) or the live CORS error log;
both clear the in-flight flag (the finally block). -/
def finishC (t : Nat) (r1 r2 : ℚ) (s : StateC) : StateC :=
  if s.config.mockMode then
    let nextBoiler := boilerGenC r1
    let nextOutside := outsideGenC r2
    let s1 : StateC := { s with data := { s.data with
      boilerTemp := toFixed1 nextBoiler
      outsideTemp := toFixed1 nextOutside
      history := sliceLast 24 (s.data.history ++ [⟨t, nextBoiler, nextOutside⟩])
      menuTree := some (mockTreeC nextBoiler) } }
    let s2 : StateC := { s1 with lastUpdate := some t }
    let s3 := addLogC t succMsgC .success s2
    { s3 with isSyncing := false, finished := s3.finished + 1 }
  else
    let s1 := addLogC t corsMsgC .error s
    { s1 with isSyncing := false, finished := s1.finished + 1 }

/-- Variant C events. -/
inductive EvC where
  | trigger (t : Nat)
  | complete (t : Nat) (r1 : ℚ) (r2 : ℚ)

/-- Variant C event-loop step. -/
def stepC : EvC → StateC → StateC
  | .trigger t, s => beginC t s
  | .complete t r1 r2, s => if s.isSyncing then finishC t r1 r2 s else s

/-- Run a sequence of variant C events. -/
def runC (evs : List EvC) (s : StateC) : StateC :=
  evs.foldl (fun s e => stepC e s) s

/-- One full variant C sync cycle at tick t. -/
def cycleC (t : Nat) (r1 r2 : ℚ) (s : StateC) : StateC :=
  stepC (.complete t r1 r2) (stepC (.trigger t) s)

/-- The history point appended by the i-th variant C mock cycle. -/
def histPtC (rs : Nat → ℚ × ℚ) (i : Nat) : HistPoint :=
  ⟨i, boilerGenC (rs i).1, outsideGenC (rs i).2⟩

/-- N consecutive variant C mock cycles from the initial state. -/
def runMockC (rs : Nat → ℚ × ℚ) : Nat → StateC
  | 0 => initC
  | n + 1 => cycleC n (rs n).1 (rs n).2 (runMockC rs n)

/-- Variant C configuration change: setConfig followed by the useEffect
re-run for deps (refreshInterval, apiUrl). -/
def applyConfigC (c : ConfigA) (s : StateC) : StateC :=
  { s with config := c, timerPeriod := some (c.refreshInterval * 1000) }

/-- Number of variant C cycles in flight (ghost observation). -/
def inflightC (s : StateC) : Nat := s.started - s.finished

theorem runA_cons (e : EvA) (evs : List EvA) (s : StateA) :
    runA (e :: evs) s = runA evs (stepA e s) := rfl

theorem runB_cons (e : EvB) (evs : List EvB) (s : StateB) :
    runB (e :: evs) s = runB evs (stepB e s) := rfl

theorem runC_cons (e : EvC) (evs : List EvC) (s : StateC) :
    runC (e :: evs) s = runC evs (stepC e s) := rfl

theorem stepA_flagCount (e : EvA) (s : StateA)
    (h : s.started = s.finished + (if s.isSyncing then 1 else 0)) :
    (stepA e s).started
      = (stepA e s).finished + (if (stepA e s).isSyncing then 1 else 0) := by
  cases e with
  | trigger t =>
    by_cases hs : s.isSyncing
    · simpa [stepA, beginA, hs] using h
    · simp [stepA, beginA, addLogA, hs] at *
      omega
  | complete t r1 r2 =>
    by_cases hs : s.isSyncing
    · by_cases hm : s.config.mockMode
      · simp [stepA, finishA, addLogA, hs, hm] at *
        omega
      · simp [stepA, finishA, addLogA, hs, hm] at *
        omega
    · simpa [stepA, hs] using h

theorem stepB_flagCount (e : EvB) (s : StateB)
    (h : s.started = s.finished + (if s.isSyncing then 1 else 0)) :
    (stepB e s).started
      = (stepB e s).finished + (if (stepB e s).isSyncing then 1 else 0) := by
  cases e with
  | trigger t =>
    by_cases hs : s.isSyncing
    · simpa [stepB, beginB, hs] using h
    · cases hm : s.mode <;> simp [stepB, beginB, addLogB, hs, hm] at * <;> omega
  | complete t rs net =>
    by_cases hs : s.isSyncing
    · cases hm : s.mode
      · simp [stepB, finishB, addLogB, hs, hm] at *
        omega
      · cases net with
        | failed m =>
          simp [stepB, finishB, catchB, addLogB, hs, hm] at *
          omega
        | resp status body =>
          by_cases hok : 200 ≤ status ∧ status < 300
          · cases hb : body.metrics <;>
              simp [stepB, finishB, catchB, addLogB, hs, hm, hok, hb] at * <;>
              omega
          · simp [stepB, finishB, catchB, addLogB, hs, hm, hok] at *
            omega
    · simpa [stepB, hs] using h

theorem stepC_flagCount (e : EvC) (s : StateC)
    (h : s.started = s.finished + (if s.isSyncing then 1 else 0)) :
    (stepC e s).started
      = (stepC e s).finished + (if (stepC e s).isSyncing then 1 else 0) := by
  cases e with
  | trigger t =>
    by_cases hs : s.isSyncing
    · simpa [stepC, beginC, hs] using h
    · simp [stepC, beginC, addLogC, hs] at *
      omega
  | complete t r1 r2 =>
    by_cases hs : s.isSyncing
    · by_cases hm : s.config.mockMode
      · simp [stepC, finishC, addLogC, hs, hm] at *
        omega
      · simp [stepC, finishC, addLogC, hs, hm] at *
        omega
    · simpa [stepC, hs] using h

theorem runA_flagCount (evs : List EvA) (s : StateA)
    (h : s.started = s.finished + (if s.isSyncing then 1 else 0)) :
    (runA evs s).started
      = (runA evs s).finished + (if (runA evs s).isSyncing then 1 else 0) := by
  induction evs generalizing s with
  | nil => exact h
  | cons e evs ih => rw [runA_cons]; exact ih _ (stepA_flagCount e s h)

theorem runB_flagCount (evs : List EvB) (s : StateB)
    (h : s.started = s.finished + (if s.isSyncing then 1 else 0)) :
    (runB evs s).started
      = (runB evs s).finished + (if (runB evs s).isSyncing then 1 else 0) := by
  induction evs generalizing s with
  | nil => exact h
  | cons e evs ih => rw [runB_cons]; exact ih _ (stepB_flagCount e s h)

theorem runC_flagCount (evs : List EvC) (s : StateC)
    (h : s.started = s.finished + (if s.isSyncing then 1 else 0)) :
    (runC evs s).started
      = (runC evs s).finished + (if (runC evs s).isSyncing then 1 else 0) := by
  induction evs generalizing s with
  | nil => exact h
  | cons e evs ih => rw [runC_cons]; exact ih _ (stepC_flagCount e s h)

/-- C1: for every sequence of sync triggers (manual or timer-driven) and
cycle completions, in each of the three variants at most one sync cycle
is ever in flight (the ghost started and finished counters never differ
by more than one), and a trigger arriving while the in-flight flag
isSyncing is set leaves the state completely unchanged: it is dropped,
not queued, so cycles never overlap or accumulate. -/
theorem c1_mutual_exclusion :
    (∀ evs : List EvA, inflightA (runA evs initA) ≤ 1) ∧
    (∀ (t : Nat) (s : StateA), s.isSyncing = true → stepA (.trigger t) s = s) ∧
    (∀ evs : List EvB, inflightB (runB evs initB) ≤ 1) ∧
    (∀ (t : Nat) (s : StateB), s.isSyncing = true → stepB (.trigger t) s = s) ∧
    (∀ evs : List EvC, inflightC (runC evs initC) ≤ 1) ∧
    (∀ (t : Nat) (s : StateC), s.isSyncing = true → stepC (.trigger t) s = s) := by
  refine ⟨?_, ?_, ?_, ?_, ?_, ?_⟩
  · intro evs
    have h := runA_flagCount evs initA (by simp [initA])
    unfold inflightA
    split at h <;> omega
  · intro t s h
    simp [stepA, beginA, h]
  · intro evs
    have h := runB_flagCount evs initB (by simp [initB])
    unfold inflightB
    split at h <;> omega
  · intro t s h
    simp [stepB, beginB, h]
  · intro evs
    have h := runC_flagCount evs initC (by simp [initC])
    unfold inflightC
    split at h <;> omega
  · intro t s h
    simp [stepC, beginC, h]

/-- C1 witness: the guarantee evaluated on concrete runs, and the no-op
behaviour of a trigger on concrete in-flight states. -/
theorem c1_mutual_exclusion_witness :
    inflightA (runA [.trigger 0, .trigger 0, .complete 1 0 0] initA) ≤ 1 ∧
    stepA (.trigger 5) { initA with isSyncing := true }
      = { initA with isSyncing := true } ∧
    inflightB (runB [.trigger 0, .trigger 0] initB) ≤ 1 ∧
    stepB (.trigger 5) { initB with isSyncing := true }
      = { initB with isSyncing := true } ∧
    inflightC (runC [.trigger 0] initC) ≤ 1 ∧
    stepC (.trigger 5) { initC with isSyncing := true }
      = { initC with isSyncing := true } :=
  ⟨c1_mutual_exclusion.1 _,
   c1_mutual_exclusion.2.1 5 _ rfl,
   c1_mutual_exclusion.2.2.1 _,
   c1_mutual_exclusion.2.2.2.1 5 _ rfl,
   c1_mutual_exclusion.2.2.2.2.1 _,
   c1_mutual_exclusion.2.2.2.2.2 5 _ rfl⟩

theorem cycleB_isSyncing (t : Nat) (rs : RandsB) (net : NetOutcome)
    (s : StateB) (h : s.isSyncing = false) :
    (cycleB t rs net s).isSyncing = false := by
  cases hm : s.mode
  · simp [cycleB, stepB, beginB, finishB, addLogB, h, hm]
  · cases net with
    | failed m =>
      simp [cycleB, stepB, beginB, finishB, catchB, addLogB, h, hm]
    | resp status body =>
      by_cases hok : 200 ≤ status ∧ status < 300
      · cases hb : body.metrics <;>
          simp [cycleB, stepB, beginB, finishB, catchB, addLogB, h, hm, hok, hb]
      · simp [cycleB, stepB, beginB, finishB, catchB, addLogB, h, hm, hok]

theorem cycleB_mode (t : Nat) (rs : RandsB) (net : NetOutcome)
    (s : StateB) (h : s.isSyncing = false) :
    (cycleB t rs net s).mode = s.mode := by
  cases hm : s.mode
  · simp [cycleB, stepB, beginB, finishB, addLogB, h, hm]
  · cases net with
    | failed m =>
      simp [cycleB, stepB, beginB, finishB, catchB, addLogB, h, hm]
    | resp status body =>
      by_cases hok : 200 ≤ status ∧ status < 300
      · cases hb : body.metrics <;>
          simp [cycleB, stepB, beginB, finishB, catchB, addLogB, h, hm, hok, hb]
      · simp [cycleB, stepB, beginB, finishB, catchB, addLogB, h, hm, hok]

theorem cycleB_history_mock (t : Nat) (rs : RandsB) (net : NetOutcome)
    (s : StateB) (h : s.isSyncing = false) (hm : s.mode = .mock) :
    (cycleB t rs net s).data.history
      = sliceLast 30
          (s.data.history ++ [⟨t, 60 + rs.r1 * 15, 5 + rs.r2 * 5⟩]) := by
  simp [cycleB, stepB, beginB, finishB, addLogB, mockMetricsB, h, hm]

theorem cycleC_isSyncing (t : Nat) (r1 r2 : ℚ) (s : StateC)
    (h : s.isSyncing = false) : (cycleC t r1 r2 s).isSyncing = false := by
  by_cases hm : s.config.mockMode
  · simp [cycleC, stepC, beginC, finishC, addLogC, h, hm]
  · simp [cycleC, stepC, beginC, finishC, addLogC, h, hm]

theorem cycleC_config (t : Nat) (r1 r2 : ℚ) (s : StateC)
    (h : s.isSyncing = false) : (cycleC t r1 r2 s).config = s.config := by
  by_cases hm : s.config.mockMode
  · simp [cycleC, stepC, beginC, finishC, addLogC, h, hm]
  · simp [cycleC, stepC, beginC, finishC, addLogC, h, hm]

theorem cycleC_history_mock (t : Nat) (r1 r2 : ℚ) (s : StateC)
    (h : s.isSyncing = false) (hm : s.config.mockMode = true) :
    (cycleC t r1 r2 s).data.history
      = sliceLast 24 (s.data.history ++ [⟨t, boilerGenC r1, outsideGenC r2⟩]) := by
  simp [cycleC, stepC, beginC, finishC, addLogC, h, hm]

theorem runMockA_inv (rs : Nat → ℚ × ℚ) (n : Nat) :
    (runMockA rs n).isSyncing = false ∧
    (runMockA rs n).config = DEFAULT_CONFIG ∧
    (runMockA rs n).data.history
      = sliceLast 20 ((List.range n).map (histPtA rs)) := by
  induction n with
  | zero =>
    refine ⟨rfl, rfl, ?_⟩
    simp [runMockA, initA, sliceLast]
  | succ n ih =>
    obtain ⟨h1, h2, h3⟩ := ih
    have hm : (runMockA rs n).config.mockMode = true := by rw [h2]; rfl
    have hstep : runMockA rs (n + 1)
        = cycleA n (rs n).1 (rs n).2 (runMockA rs n) := rfl
    refine ⟨by rw [hstep]; exact cycleA_isSyncing _ _ _ _ h1, ?_, ?_⟩
    · rw [hstep, cycleA_config _ _ _ _ h1, h2]
    · rw [hstep, cycleA_history_mock _ _ _ _ h1 hm, h3, sliceLast_absorb,
        List.range_succ, List.map_append]
      rfl

theorem runMockB_inv (rs : Nat → RandsB) (n : Nat) :
    (runMockB rs n).isSyncing = false ∧
    (runMockB rs n).mode = ModeB.mock ∧
    (runMockB rs n).data.history
      = sliceLast 30 ((List.range n).map (histPtB rs)) := by
  induction n with
  | zero =>
    refine ⟨rfl, rfl, ?_⟩
    simp [runMockB, initB, sliceLast]
  | succ n ih =>
    obtain ⟨h1, h2, h3⟩ := ih
    have hstep : runMockB rs (n + 1)
        = cycleB n (rs n) (.failed "") (runMockB rs n) := rfl
    refine ⟨by rw [hstep]; exact cycleB_isSyncing _ _ _ _ h1, ?_, ?_⟩
    · rw [hstep, cycleB_mode _ _ _ _ h1, h2]
    · rw [hstep, cycleB_history_mock _ _ _ _ h1 h2, h3, sliceLast_absorb,
        List.range_succ, List.map_append]
      rfl

theorem runMockC_inv (rs : Nat → ℚ × ℚ) (n : Nat) :
    (runMockC rs n).isSyncing = false ∧
    (runMockC rs n).config = INITIAL_CONFIG ∧
    (runMockC rs n).data.history
      = sliceLast 24 ((List.range n).map (histPtC rs)) := by
  induction n with
  | zero =>
    refine ⟨rfl, rfl, ?_⟩
    simp [runMockC, initC, sliceLast]
  | succ n ih =>
    obtain ⟨h1, h2, h3⟩ := ih
    have hm : (runMockC rs n).config.mockMode = true := by rw [h2]; rfl
    have hstep : runMockC rs (n + 1)
        = cycleC n (rs n).1 (rs n).2 (runMockC rs n) := rfl
    refine ⟨by rw [hstep]; exact cycleC_isSyncing _ _ _ _ h1, ?_, ?_⟩
    · rw [hstep, cycleC_config _ _ _ _ h1, h2]
    · rw [hstep, cycleC_history_mock _ _ _ _ h1 hm, h3, sliceLast_absorb,
        List.range_succ, List.map_append]
      rfl

theorem pairwise_time_drop {f : Nat → HistPoint}
    (hf : ∀ i, (f i).time = i) (n k : Nat) :
    (((List.range n).map f).drop k).Pairwise (fun p q => p.time < q.time) := by
  apply List.Pairwise.sublist (List.drop_sublist _ _)
  rw [List.pairwise_map]
  refine (List.pairwise_lt_range n).imp ?_
  intro a b h
  rw [hf a, hf b]
  exact h

theorem countP_addCapped (p : LogEntry → Bool) (cap : Nat) (e : LogEntry)
    (l : List LogEntry) (h : l.length + 1 ≤ cap) :
    (addCapped cap e l).countP p = l.countP p + if p e then 1 else 0 := by
  rw [addCapped_of_room cap e l h, List.countP_cons]

theorem countError_addCapped (cap : Nat) (e : LogEntry) (l : List LogEntry)
    (h : l.length + 1 ≤ cap) :
    countError (addCapped cap e l)
      = countError l + if isErrorEntry e then 1 else 0 :=
  countP_addCapped isErrorEntry cap e l h

theorem countOutcome_addCapped (cap : Nat) (e : LogEntry) (l : List LogEntry)
    (h : l.length + 1 ≤ cap) :
    countOutcome (addCapped cap e l)
      = countOutcome l + if isOutcomeEntry e then 1 else 0 :=
  countP_addCapped isOutcomeEntry cap e l h

/-- A live-mode fetch outcome on which the cycle fails: a rejected fetch
or a response whose status is not 2xx (response.ok false). -/
def isFailureOutcome : NetOutcome → Prop
  | .failed _ => True
  | .resp status _ => ¬(200 ≤ status ∧ status < 300)

/-- C3: a live-mode sync cycle that fails (rejected fetch or non-2xx
status) leaves the prior data cell (telemetry snapshot, history buffer
and parameter tree) and lastSync completely unchanged, finishes with the
guard cleared, issues exactly one request (no retry within the cycle),
and appends exactly one error-severity log entry (counted under the
no-truncation side condition that the log list has room for the cycle's
two entries). -/
theorem c3_live_failure_frame (t : Nat) (rs : RandsB) (net : NetOutcome)
    (s : StateB) (h : s.isSyncing = false) (hm : s.mode = ModeB.live)
    (hf : isFailureOutcome net) :
    (cycleB t rs net s).data = s.data ∧
    (cycleB t rs net s).lastSync = s.lastSync ∧
    (cycleB t rs net s).isSyncing = false ∧
    (cycleB t rs net s).fetchCount = s.fetchCount + 1 ∧
    (s.logs.length + 2 ≤ 100 →
      countError (cycleB t rs net s).logs = countError s.logs + 1) := by
  cases net with
  | failed m =>
    have hlogs : (cycleB t rs (.failed m) s).logs
        = addCapped 100 ⟨t, "Sync Failed: " ++ m, .error⟩
            (addCapped 100
              ⟨t, "Fetching data from " ++ s.apiUrl ++ "/data.json", .info⟩
              s.logs) := by
      simp [cycleB, stepB, beginB, finishB, catchB, addLogB, h, hm]
    refine ⟨?_, ?_, ?_, ?_, ?_⟩
    · simp [cycleB, stepB, beginB, finishB, catchB, addLogB, h, hm]
    · simp [cycleB, stepB, beginB, finishB, catchB, addLogB, h, hm]
    · simp [cycleB, stepB, beginB, finishB, catchB, addLogB, h, hm]
    · simp [cycleB, stepB, beginB, finishB, catchB, addLogB, h, hm]
    · intro hlen
      rw [hlogs,
        countError_addCapped _ _ _ (by rw [addCapped_length]; omega),
        countError_addCapped _ _ _ (by omega)]
      simp [isErrorEntry]
  | resp status body =>
    have hok : ¬(200 ≤ status ∧ status < 300) := hf
    have hlogs : (cycleB t rs (.resp status body) s).logs
        = addCapped 100
            ⟨t, "Sync Failed: " ++ ("HTTP Error: " ++ toString status),
              .error⟩
            (addCapped 100
              ⟨t, "Fetching data from " ++ s.apiUrl ++ "/data.json", .info⟩
              s.logs) := by
      simp [cycleB, stepB, beginB, finishB, catchB, addLogB, h, hm, hok]
    refine ⟨?_, ?_, ?_, ?_, ?_⟩
    · simp [cycleB, stepB, beginB, finishB, catchB, addLogB, h, hm, hok]
    · simp [cycleB, stepB, beginB, finishB, catchB, addLogB, h, hm, hok]
    · simp [cycleB, stepB, beginB, finishB, catchB, addLogB, h, hm, hok]
    · simp [cycleB, stepB, beginB, finishB, catchB, addLogB, h, hm, hok]
    · intro hlen
      rw [hlogs,
        countError_addCapped _ _ _ (by rw [addCapped_length]; omega),
        countError_addCapped _ _ _ (by omega)]
      simp [isErrorEntry]

/-- C3 witness: an HTTP 500 response in live mode, from the initial state
switched to live mode, leaves the data untouched and adds one error. -/
theorem c3_live_failure_frame_witness :
    ({ initB with mode := ModeB.live } : StateB).isSyncing = false ∧
    ({ initB with mode := ModeB.live } : StateB).mode = ModeB.live ∧
    isFailureOutcome (.resp 500 ⟨none, []⟩) ∧
    ((cycleB 0 ⟨0, 0, 0, 0, 0⟩ (.resp 500 ⟨none, []⟩)
        { initB with mode := ModeB.live }).data
      = ({ initB with mode := ModeB.live } : StateB).data ∧
    (cycleB 0 ⟨0, 0, 0, 0, 0⟩ (.resp 500 ⟨none, []⟩)
        { initB with mode := ModeB.live }).lastSync
      = ({ initB with mode := ModeB.live } : StateB).lastSync ∧
    (cycleB 0 ⟨0, 0, 0, 0, 0⟩ (.resp 500 ⟨none, []⟩)
        { initB with mode := ModeB.live }).isSyncing = false ∧
    (cycleB 0 ⟨0, 0, 0, 0, 0⟩ (.resp 500 ⟨none, []⟩)
        { initB with mode := ModeB.live }).fetchCount
      = ({ initB with mode := ModeB.live } : StateB).fetchCount + 1 ∧
    (({ initB with mode := ModeB.live } : StateB).logs.length + 2 ≤ 100 →
      countError (cycleB 0 ⟨0, 0, 0, 0, 0⟩ (.resp 500 ⟨none, []⟩)
          { initB with mode := ModeB.live }).logs
        = countError ({ initB with mode := ModeB.live } : StateB).logs + 1)) :=
  ⟨rfl, rfl, by intro hc; exact absurd hc.2 (by norm_num),
    c3_live_failure_frame 0 ⟨0, 0, 0, 0, 0⟩ (.resp 500 ⟨none, []⟩)
      { initB with mode := ModeB.live } rfl rfl
      (by intro hc; exact absurd hc.2 (by norm_num))⟩

theorem randScale_bounds (r lo scale : ℚ) (hr0 : 0 ≤ r) (hr1 : r < 1)
    (hs : 0 ≤ scale) :
    lo ≤ lo + r * scale ∧ lo + r * scale ≤ lo + scale := by
  constructor
  · have := mul_nonneg hr0 hs
    linarith
  · have h : r * scale ≤ 1 * scale :=
      mul_le_mul_of_nonneg_right (le_of_lt hr1) hs
    rw [one_mul] at h
    linarith

theorem addCapped_head (cap : Nat) (hc : 0 < cap) (e : α) (l : List α) :
    (addCapped cap e l).head? = some e := by
  unfold addCapped
  cases cap with
  | zero => omega
  | succ n => rfl

/-- C4: every mock-mode sync cycle succeeds in all three variants - it
appends a success entry at the head of the log, sets the last-update
field and never takes the error path (the error count is unchanged when
the log has room) - and each generated telemetry value lies within its
plausible range; in particular the generated boiler temperature is
always within 60 to 80 degrees in every variant. -/
theorem c4_mock_success_and_bounds :
    (∀ r : ℚ, 0 ≤ r → r < 1 →
      (60 ≤ boilerGenA r ∧ boilerGenA r ≤ 80) ∧
      (5 ≤ outsideGenA r ∧ outsideGenA r ≤ 10) ∧
      (60 ≤ boilerGenC r ∧ boilerGenC r ≤ 80) ∧
      (5 ≤ outsideGenC r ∧ outsideGenC r ≤ 8)) ∧
    (∀ rs : RandsB, 0 ≤ rs.r1 → rs.r1 < 1 → 0 ≤ rs.r2 → rs.r2 < 1 →
      0 ≤ rs.r3 → rs.r3 < 1 → 0 ≤ rs.r4 → rs.r4 < 1 →
      0 ≤ rs.r5 → rs.r5 < 1 →
      (60 ≤ (mockMetricsB rs).boiler ∧ (mockMetricsB rs).boiler ≤ 80) ∧
      (5 ≤ (mockMetricsB rs).outside ∧ (mockMetricsB rs).outside ≤ 10) ∧
      (140 ≤ (mockMetricsB rs).exhaust ∧ (mockMetricsB rs).exhaust ≤ 160) ∧
      (65 ≤ (mockMetricsB rs).bufferTop ∧ (mockMetricsB rs).bufferTop ≤ 70) ∧
      (40 ≤ (mockMetricsB rs).bufferBottom ∧
        (mockMetricsB rs).bufferBottom ≤ 45) ∧
      (mockMetricsB rs).pellets = 2450) ∧
    (∀ (t : Nat) (r1 r2 : ℚ) (s : StateA), s.isSyncing = false →
      s.config.mockMode = true →
      (cycleA t r1 r2 s).logs.head? = some ⟨t, succMsgA, .success⟩ ∧
      (cycleA t r1 r2 s).lastUpdate = some t ∧
      (s.logs.length + 2 ≤ 50 →
        countError (cycleA t r1 r2 s).logs = countError s.logs)) ∧
    (∀ (t : Nat) (rs : RandsB) (net : NetOutcome) (s : StateB),
      s.isSyncing = false → s.mode = ModeB.mock →
      (cycleB t rs net s).logs.head?
        = some ⟨t, "Mock data generated successfully", .success⟩ ∧
      (cycleB t rs net s).lastSync = some t ∧
      (s.logs.length + 1 ≤ 100 →
        countError (cycleB t rs net s).logs = countError s.logs)) ∧
    (∀ (t : Nat) (r1 r2 : ℚ) (s : StateC), s.isSyncing = false →
      s.config.mockMode = true →
      (cycleC t r1 r2 s).logs.head? = some ⟨t, succMsgC, .success⟩ ∧
      (cycleC t r1 r2 s).lastUpdate = some t ∧
      (s.logs.length + 2 ≤ 50 →
        countError (cycleC t r1 r2 s).logs = countError s.logs)) := by
  refine ⟨?_, ?_, ?_, ?_, ?_⟩
  · intro r hr0 hr1
    obtain ⟨a1, a2⟩ := randScale_bounds r 65 10 hr0 hr1 (by norm_num)
    obtain ⟨b1, b2⟩ := randScale_bounds r 5 5 hr0 hr1 (by norm_num)
    obtain ⟨c1, c2⟩ := randScale_bounds r 70 5 hr0 hr1 (by norm_num)
    obtain ⟨d1, d2⟩ := randScale_bounds r 5 3 hr0 hr1 (by norm_num)
    exact ⟨⟨by simp only [boilerGenA]; linarith,
        by simp only [boilerGenA]; linarith⟩,
      ⟨by simp only [outsideGenA]; linarith,
        by simp only [outsideGenA]; linarith⟩,
      ⟨by simp only [boilerGenC]; linarith,
        by simp only [boilerGenC]; linarith⟩,
      ⟨by simp only [outsideGenC]; linarith,
        by simp only [outsideGenC]; linarith⟩⟩
  · intro rs h1 h2 h3 h4 h5 h6 h7 h8 h9 h10
    obtain ⟨a1, a2⟩ := randScale_bounds rs.r1 60 15 h1 h2 (by norm_num)
    obtain ⟨b1, b2⟩ := randScale_bounds rs.r2 5 5 h3 h4 (by norm_num)
    obtain ⟨c1, c2⟩ := randScale_bounds rs.r3 140 20 h5 h6 (by norm_num)
    obtain ⟨d1, d2⟩ := randScale_bounds rs.r4 65 5 h7 h8 (by norm_num)
    obtain ⟨e1, e2⟩ := randScale_bounds rs.r5 40 5 h9 h10 (by norm_num)
    exact ⟨⟨by simp only [mockMetricsB]; linarith,
        by simp only [mockMetricsB]; linarith⟩,
      ⟨by simp only [mockMetricsB]; linarith,
        by simp only [mockMetricsB]; linarith⟩,
      ⟨by simp only [mockMetricsB]; linarith,
        by simp only [mockMetricsB]; linarith⟩,
      ⟨by simp only [mockMetricsB]; linarith,
        by simp only [mockMetricsB]; linarith⟩,
      ⟨by simp only [mockMetricsB]; linarith,
        by simp only [mockMetricsB]; linarith⟩,
      rfl⟩
  · intro t r1 r2 s h hm
    have hlogs : (cycleA t r1 r2 s).logs
        = addCapped 50 ⟨t, succMsgA, .success⟩
            (addCapped 50 ⟨t, infoMsgA s.config.apiUrl, .info⟩ s.logs) := by
      simp [cycleA, stepA, beginA, finishA, addLogA, h, hm]
    refine ⟨?_, ?_, ?_⟩
    · rw [hlogs, addCapped_head 50 (by norm_num)]
    · simp [cycleA, stepA, beginA, finishA, addLogA, h, hm]
    · intro hlen
      rw [hlogs,
        countError_addCapped _ _ _ (by rw [addCapped_length]; omega),
        countError_addCapped _ _ _ (by omega)]
      simp [isErrorEntry]
  · intro t rs net s h hm
    have hlogs : (cycleB t rs net s).logs
        = addCapped 100 ⟨t, "Mock data generated successfully", .success⟩
            s.logs := by
      simp [cycleB, stepB, beginB, finishB, addLogB, h, hm]
    refine ⟨?_, ?_, ?_⟩
    · rw [hlogs, addCapped_head 100 (by norm_num)]
    · simp [cycleB, stepB, beginB, finishB, addLogB, h, hm]
    · intro hlen
      rw [hlogs, countError_addCapped _ _ _ (by omega)]
      simp [isErrorEntry]
  · intro t r1 r2 s h hm
    have hlogs : (cycleC t r1 r2 s).logs
        = addCapped 50 ⟨t, succMsgC, .success⟩
            (addCapped 50 ⟨t, infoMsgC s.config.apiUrl, .info⟩ s.logs) := by
      simp [cycleC, stepC, beginC, finishC, addLogC, h, hm]
    refine ⟨?_, ?_, ?_⟩
    · rw [hlogs, addCapped_head 50 (by norm_num)]
    · simp [cycleC, stepC, beginC, finishC, addLogC, h, hm]
    · intro hlen
      rw [hlogs,
        countError_addCapped _ _ _ (by rw [addCapped_length]; omega),
        countError_addCapped _ _ _ (by omega)]
      simp [isErrorEntry]

/-- C4 witness: the bounds and success behaviour evaluated with every
random draw at one half, from each variant's initial state. -/
theorem c4_mock_success_and_bounds_witness :
    ((0 : ℚ) ≤ 1 / 2) ∧ ((1 / 2 : ℚ) < 1) ∧
    (60 ≤ boilerGenA (1 / 2) ∧ boilerGenA (1 / 2) ≤ 80) ∧
    (60 ≤ (mockMetricsB ⟨1 / 2, 1 / 2, 1 / 2, 1 / 2, 1 / 2⟩).boiler ∧
      (mockMetricsB ⟨1 / 2, 1 / 2, 1 / 2, 1 / 2, 1 / 2⟩).boiler ≤ 80) ∧
    (cycleA 0 (1 / 2) (1 / 2) initA).logs.head?
      = some ⟨0, succMsgA, .success⟩ ∧
    (cycleB 0 ⟨1 / 2, 1 / 2, 1 / 2, 1 / 2, 1 / 2⟩ (.failed "") initB).logs.head?
      = some ⟨0, "Mock data generated successfully", .success⟩ ∧
    (cycleC 0 (1 / 2) (1 / 2) initC).logs.head?
      = some ⟨0, succMsgC, .success⟩ :=
  ⟨by norm_num, by norm_num,
    (c4_mock_success_and_bounds.1 (1 / 2) (by norm_num) (by norm_num)).1,
    (c4_mock_success_and_bounds.2.1 ⟨1 / 2, 1 / 2, 1 / 2, 1 / 2, 1 / 2⟩
      (by norm_num) (by norm_num) (by norm_num) (by norm_num) (by norm_num)
      (by norm_num) (by norm_num) (by norm_num) (by norm_num)
      (by norm_num)).1,
    (c4_mock_success_and_bounds.2.2.1 0 (1 / 2) (1 / 2) initA rfl rfl).1,
    (c4_mock_success_and_bounds.2.2.2.1 0 ⟨1 / 2, 1 / 2, 1 / 2, 1 / 2, 1 / 2⟩
      (.failed "") initB rfl rfl).1,
    (c4_mock_success_and_bounds.2.2.2.2 0 (1 / 2) (1 / 2) initC rfl rfl).1⟩

theorem addCapped_le (cap : Nat) (e : α) (l : List α) :
    (addCapped cap e l).length ≤ cap := by
  rw [addCapped_length]
  omega

theorem addCapped_full (cap : Nat) (e : α) (l : List α)
    (h : l.length = cap) (hc : 0 < cap) :
    addCapped cap e l = e :: l.dropLast := by
  unfold addCapped
  cases cap with
  | zero => omega
  | succ n =>
    rw [List.take_succ_cons, show n = l.length - 1 by omega,
      ← List.dropLast_eq_take]

/-- C5: in each variant, for every sequence of log appends the log list
never exceeds the variant's capacity (50 for performSync and fetchCycle,
100 for fetchData), the freshly appended entry is stored at the head
(most-recent-first), and when the capacity would be exceeded the entry
evicted is the last one of the list, i.e. the oldest. -/
theorem c5_log_capacity :
    (∀ (es : List LogEntry) (s : StateA), s.logs.length ≤ 50 →
      ((es.foldl (fun s e => addLogA e.time e.msg e.type s) s).logs).length
        ≤ 50) ∧
    (∀ (t : Nat) (m : String) (ty : Severity) (s : StateA),
      (addLogA t m ty s).logs.head? = some ⟨t, m, ty⟩) ∧
    (∀ (t : Nat) (m : String) (ty : Severity) (s : StateA),
      s.logs.length = 50 →
      (addLogA t m ty s).logs = ⟨t, m, ty⟩ :: s.logs.dropLast) ∧
    (∀ (es : List LogEntry) (s : StateB), s.logs.length ≤ 100 →
      ((es.foldl (fun s e => addLogB e.time e.msg e.type s) s).logs).length
        ≤ 100) ∧
    (∀ (t : Nat) (m : String) (ty : Severity) (s : StateB),
      (addLogB t m ty s).logs.head? = some ⟨t, m, ty⟩) ∧
    (∀ (t : Nat) (m : String) (ty : Severity) (s : StateB),
      s.logs.length = 100 →
      (addLogB t m ty s).logs = ⟨t, m, ty⟩ :: s.logs.dropLast) ∧
    (∀ (es : List LogEntry) (s : StateC), s.logs.length ≤ 50 →
      ((es.foldl (fun s e => addLogC e.time e.msg e.type s) s).logs).length
        ≤ 50) ∧
    (∀ (t : Nat) (m : String) (ty : Severity) (s : StateC),
      (addLogC t m ty s).logs.head? = some ⟨t, m, ty⟩) ∧
    (∀ (t : Nat) (m : String) (ty : Severity) (s : StateC),
      s.logs.length = 50 →
      (addLogC t m ty s).logs = ⟨t, m, ty⟩ :: s.logs.dropLast) := by
  refine ⟨?_, ?_, ?_, ?_, ?_, ?_, ?_, ?_, ?_⟩
  · intro es
    induction es with
    | nil => intro s h; exact h
    | cons e es ih =>
      intro s h
      rw [List.foldl_cons]
      exact ih _ (by simpa [addLogA] using addCapped_le 50 _ s.logs)
  · intro t m ty s
    simpa [addLogA] using addCapped_head 50 (by norm_num) _ s.logs
  · intro t m ty s h
    simpa [addLogA] using addCapped_full 50 _ s.logs h (by norm_num)
  · intro es
    induction es with
    | nil => intro s h; exact h
    | cons e es ih =>
      intro s h
      rw [List.foldl_cons]
      exact ih _ (by simpa [addLogB] using addCapped_le 100 _ s.logs)
  · intro t m ty s
    simpa [addLogB] using addCapped_head 100 (by norm_num) _ s.logs
  · intro t m ty s h
    simpa [addLogB] using addCapped_full 100 _ s.logs h (by norm_num)
  · intro es
    induction es with
    | nil => intro s h; exact h
    | cons e es ih =>
      intro s h
      rw [List.foldl_cons]
      exact ih _ (by simpa [addLogC] using addCapped_le 50 _ s.logs)
  · intro t m ty s
    simpa [addLogC] using addCapped_head 50 (by norm_num) _ s.logs
  · intro t m ty s h
    simpa [addLogC] using addCapped_full 50 _ s.logs h (by norm_num)

/-- C5 witness: capacity, ordering and eviction evaluated at a full
50-entry variant A log and at the initial states. -/
theorem c5_log_capacity_witness :
    (([] : List LogEntry).foldl
        (fun s e => addLogA e.time e.msg e.type s) initA).logs.length ≤ 50 ∧
    (addLogA 3 "m" .info initA).logs.head? = some ⟨3, "m", .info⟩ ∧
    ({ initA with
        logs := List.replicate 50 ⟨0, "old", .info⟩ } : StateA).logs.length
      = 50 ∧
    (addLogA 7 "new" .error
        { initA with logs := List.replicate 50 ⟨0, "old", .info⟩ }).logs
      = ⟨7, "new", .error⟩
          :: (List.replicate 50 (⟨0, "old", .info⟩ : LogEntry)).dropLast :=
  ⟨c5_log_capacity.1 [] initA (by simp [initA]),
   c5_log_capacity.2.1 3 "m" .info initA,
   by simp,
   c5_log_capacity.2.2.1 7 "new" .error
     { initA with logs := List.replicate 50 ⟨0, "old", .info⟩ } (by simp)⟩

/-- C6: in every variant, a sync cycle that runs to completion - whether
it succeeds or fails - finishes with the in-flight guard cleared,
appends exactly one outcome log entry (severity success or error,
counted under the no-truncation side condition), and appends at most one
history point (a HistPoint carries exactly the charted metrics: tick,
boiler and outside). -/
theorem c6_completion_effects :
    (∀ (t : Nat) (r1 r2 : ℚ) (s : StateA), s.isSyncing = false →
      s.logs.length + 2 ≤ 50 →
      (cycleA t r1 r2 s).isSyncing = false ∧
      countOutcome (cycleA t r1 r2 s).logs = countOutcome s.logs + 1 ∧
      ((cycleA t r1 r2 s).data.history = s.data.history ∨
        ∃ p : HistPoint,
          (cycleA t r1 r2 s).data.history
            = sliceLast 20 (s.data.history ++ [p]))) ∧
    (∀ (t : Nat) (rs : RandsB) (net : NetOutcome) (s : StateB),
      s.isSyncing = false → s.logs.length + 2 ≤ 100 →
      (cycleB t rs net s).isSyncing = false ∧
      countOutcome (cycleB t rs net s).logs = countOutcome s.logs + 1 ∧
      ((cycleB t rs net s).data.history = s.data.history ∨
        (∃ p : HistPoint,
          (cycleB t rs net s).data.history
            = sliceLast 20 (s.data.history ++ [p])) ∨
        (∃ p : HistPoint,
          (cycleB t rs net s).data.history
            = sliceLast 30 (s.data.history ++ [p])))) ∧
    (∀ (t : Nat) (r1 r2 : ℚ) (s : StateC), s.isSyncing = false →
      s.logs.length + 2 ≤ 50 →
      (cycleC t r1 r2 s).isSyncing = false ∧
      countOutcome (cycleC t r1 r2 s).logs = countOutcome s.logs + 1 ∧
      ((cycleC t r1 r2 s).data.history = s.data.history ∨
        ∃ p : HistPoint,
          (cycleC t r1 r2 s).data.history
            = sliceLast 24 (s.data.history ++ [p]))) := by
  refine ⟨?_, ?_, ?_⟩
  · intro t r1 r2 s h hlen
    by_cases hm : s.config.mockMode = true
    · have hlogs : (cycleA t r1 r2 s).logs
          = addCapped 50 ⟨t, succMsgA, .success⟩
              (addCapped 50 ⟨t, infoMsgA s.config.apiUrl, .info⟩ s.logs) := by
        simp [cycleA, stepA, beginA, finishA, addLogA, h, hm]
      refine ⟨cycleA_isSyncing _ _ _ _ h, ?_,
        Or.inr ⟨⟨t, boilerGenA r1, outsideGenA r2⟩,
          cycleA_history_mock _ _ _ _ h hm⟩⟩
      rw [hlogs,
        countOutcome_addCapped _ _ _ (by rw [addCapped_length]; omega),
        countOutcome_addCapped _ _ _ (by omega)]
      simp [isOutcomeEntry]
    · have hlogs : (cycleA t r1 r2 s).logs
          = addCapped 50 ⟨t, corsMsgA, .error⟩
              (addCapped 50 ⟨t, infoMsgA s.config.apiUrl, .info⟩ s.logs) := by
        simp [cycleA, stepA, beginA, finishA, addLogA, h, hm]
      refine ⟨cycleA_isSyncing _ _ _ _ h, ?_,
        Or.inl (by simp [cycleA, stepA, beginA, finishA, addLogA, h, hm])⟩
      rw [hlogs,
        countOutcome_addCapped _ _ _ (by rw [addCapped_length]; omega),
        countOutcome_addCapped _ _ _ (by omega)]
      simp [isOutcomeEntry]
  · intro t rs net s h hlen
    cases hm : s.mode with
    | mock =>
      have hlogs : (cycleB t rs net s).logs
          = addCapped 100 ⟨t, "Mock data generated successfully", .success⟩
              s.logs := by
        simp [cycleB, stepB, beginB, finishB, addLogB, h, hm]
      refine ⟨cycleB_isSyncing _ _ _ _ h, ?_,
        Or.inr (Or.inr ⟨⟨t, 60 + rs.r1 * 15, 5 + rs.r2 * 5⟩,
          cycleB_history_mock _ _ _ _ h hm⟩)⟩
      rw [hlogs, countOutcome_addCapped _ _ _ (by omega)]
      simp [isOutcomeEntry]
    | live =>
      cases net with
      | failed m =>
        have hlogs : (cycleB t rs (.failed m) s).logs
            = addCapped 100 ⟨t, "Sync Failed: " ++ m, .error⟩
                (addCapped 100
                  ⟨t, "Fetching data from " ++ s.apiUrl ++ "/data.json",
                    .info⟩ s.logs) := by
          simp [cycleB, stepB, beginB, finishB, catchB, addLogB, h, hm]
        refine ⟨cycleB_isSyncing _ _ _ _ h, ?_,
          Or.inl (by
            simp [cycleB, stepB, beginB, finishB, catchB, addLogB, h, hm])⟩
        rw [hlogs,
          countOutcome_addCapped _ _ _ (by rw [addCapped_length]; omega),
          countOutcome_addCapped _ _ _ (by omega)]
        simp [isOutcomeEntry]
      | resp status body =>
        by_cases hok : 200 ≤ status ∧ status < 300
        · cases hb : body.metrics with
          | none =>
            have hlogs : (cycleB t rs (.resp status body) s).logs
                = addCapped 100 ⟨t, "Sync Failed: " ++ jsonFaultMsg, .error⟩
                    (addCapped 100
                      ⟨t, "Fetching data from " ++ s.apiUrl ++ "/data.json",
                        .info⟩ s.logs) := by
              simp [cycleB, stepB, beginB, finishB, catchB, addLogB, h, hm,
                hok, hb]
            refine ⟨cycleB_isSyncing _ _ _ _ h, ?_,
              Or.inl (by
                simp [cycleB, stepB, beginB, finishB, catchB, addLogB, h,
                  hm, hok, hb])⟩
            rw [hlogs,
              countOutcome_addCapped _ _ _ (by rw [addCapped_length]; omega),
              countOutcome_addCapped _ _ _ (by omega)]
            simp [isOutcomeEntry]
          | some m =>
            have hlogs : (cycleB t rs (.resp status body) s).logs
                = addCapped 100
                    ⟨t, "Data synced successfully from Server", .success⟩
                    (addCapped 100
                      ⟨t, "Fetching data from " ++ s.apiUrl ++ "/data.json",
                        .info⟩ s.logs) := by
              simp [cycleB, stepB, beginB, finishB, addLogB, h, hm, hok, hb]
            refine ⟨cycleB_isSyncing _ _ _ _ h, ?_,
              Or.inr (Or.inl ⟨⟨t, m.boiler, m.outside⟩, by
                simp [cycleB, stepB, beginB, finishB, addLogB, h, hm, hok,
                  hb]⟩)⟩
            rw [hlogs,
              countOutcome_addCapped _ _ _ (by rw [addCapped_length]; omega),
              countOutcome_addCapped _ _ _ (by omega)]
            simp [isOutcomeEntry]
        · have hlogs : (cycleB t rs (.resp status body) s).logs
              = addCapped 100
                  ⟨t, "Sync Failed: " ++ ("HTTP Error: " ++ toString status),
                    .error⟩
                  (addCapped 100
                    ⟨t, "Fetching data from " ++ s.apiUrl ++ "/data.json",
                      .info⟩ s.logs) := by
            simp [cycleB, stepB, beginB, finishB, catchB, addLogB, h, hm, hok]
          refine ⟨cycleB_isSyncing _ _ _ _ h, ?_,
            Or.inl (by
              simp [cycleB, stepB, beginB, finishB, catchB, addLogB, h, hm,
                hok])⟩
          rw [hlogs,
            countOutcome_addCapped _ _ _ (by rw [addCapped_length]; omega),
            countOutcome_addCapped _ _ _ (by omega)]
          simp [isOutcomeEntry]
  · intro t r1 r2 s h hlen
    by_cases hm : s.config.mockMode = true
    · have hlogs : (cycleC t r1 r2 s).logs
          = addCapped 50 ⟨t, succMsgC, .success⟩
              (addCapped 50 ⟨t, infoMsgC s.config.apiUrl, .info⟩ s.logs) := by
        simp [cycleC, stepC, beginC, finishC, addLogC, h, hm]
      refine ⟨cycleC_isSyncing _ _ _ _ h, ?_,
        Or.inr ⟨⟨t, boilerGenC r1, outsideGenC r2⟩,
          cycleC_history_mock _ _ _ _ h hm⟩⟩
      rw [hlogs,
        countOutcome_addCapped _ _ _ (by rw [addCapped_length]; omega),
        countOutcome_addCapped _ _ _ (by omega)]
      simp [isOutcomeEntry]
    · have hlogs : (cycleC t r1 r2 s).logs
          = addCapped 50 ⟨t, corsMsgC, .error⟩
              (addCapped 50 ⟨t, infoMsgC s.config.apiUrl, .info⟩ s.logs) := by
        simp [cycleC, stepC, beginC, finishC, addLogC, h, hm]
      refine ⟨cycleC_isSyncing _ _ _ _ h, ?_,
        Or.inl (by simp [cycleC, stepC, beginC, finishC, addLogC, h, hm])⟩
      rw [hlogs,
        countOutcome_addCapped _ _ _ (by rw [addCapped_length]; omega),
        countOutcome_addCapped _ _ _ (by omega)]
      simp [isOutcomeEntry]

/-- C6 witness: completion effects evaluated from each variant's initial
state (variant B both in mock mode and on a live HTTP 404). -/
theorem c6_completion_effects_witness :
    (initA.isSyncing = false ∧ initA.logs.length + 2 ≤ 50) ∧
    countOutcome (cycleA 2 0 0 initA).logs = countOutcome initA.logs + 1 ∧
    countOutcome (cycleB 2 ⟨0, 0, 0, 0, 0⟩ (.failed "") initB).logs
      = countOutcome initB.logs + 1 ∧
    countOutcome (cycleB 2 ⟨0, 0, 0, 0, 0⟩ (.resp 404 ⟨none, []⟩)
        { initB with mode := ModeB.live }).logs
      = countOutcome ({ initB with mode := ModeB.live } : StateB).logs + 1 ∧
    countOutcome (cycleC 2 0 0 initC).logs = countOutcome initC.logs + 1 :=
  ⟨⟨rfl, by simp [initA]⟩,
    (c6_completion_effects.1 2 0 0 initA rfl (by simp [initA])).2.1,
    (c6_completion_effects.2.1 2 ⟨0, 0, 0, 0, 0⟩ (.failed "") initB rfl
      (by simp [initB])).2.1,
    (c6_completion_effects.2.1 2 ⟨0, 0, 0, 0, 0⟩ (.resp 404 ⟨none, []⟩)
      { initB with mode := ModeB.live } rfl (by simp [initB])).2.1,
    (c6_completion_effects.2.2 2 0 0 initC rfl (by simp [initC])).2.1⟩

/-- C7 counterexample: the snapshot is NOT replaced wholesale in the
performSync variant.  Two states that differ only in the prior
exhaustTemp yield, under the same successful mock cycle, snapshots that
still differ: exhaustTemp survives from the previous cycle verbatim
rather than being freshly produced. -/
theorem c7_counterexample :
    (cycleA 0 0 0 initA).data.exhaustTemp = initA.data.exhaustTemp ∧
    (cycleA 0 0 0
        { initA with data :=
          { initA.data with exhaustTemp := 999 } }).data.exhaustTemp
      = 999 ∧
    (cycleA 0 0 0 initA).data.exhaustTemp
      ≠ (cycleA 0 0 0
          { initA with data :=
            { initA.data with exhaustTemp := 999 } }).data.exhaustTemp := by
  refine ⟨?_, ?_, ?_⟩
  · simp [cycleA, stepA, beginA, finishA, addLogA, initA, DEFAULT_CONFIG]
  · simp [cycleA, stepA, beginA, finishA, addLogA, initA, DEFAULT_CONFIG]
  · simp [cycleA, stepA, beginA, finishA, addLogA, initA, DEFAULT_CONFIG]
    norm_num

/-- C7 amended: on every successful sync cycle the parameter tree is
replaced wholesale - it is a function of that cycle's generated values
alone - and in the fetchData variant the whole metrics snapshot is
likewise replaced wholesale (from the generator or from the response
body); but in the performSync and fetchCycle variants only boilerTemp
and outsideTemp are freshly produced, while the remaining snapshot
fields (exhaustTemp, runtime, boilerSoll, alerts) are carried over
unchanged from the previous state via the prev spread. -/
theorem c7_amended_wholesale :
    (∀ (t : Nat) (r1 r2 : ℚ) (s : StateA), s.isSyncing = false →
      s.config.mockMode = true →
      (cycleA t r1 r2 s).data.menuTree = some (mockTreeA (boilerGenA r1)) ∧
      (cycleA t r1 r2 s).data.boilerTemp = toFixed1 (boilerGenA r1) ∧
      (cycleA t r1 r2 s).data.outsideTemp = toFixed1 (outsideGenA r2) ∧
      (cycleA t r1 r2 s).data.exhaustTemp = s.data.exhaustTemp ∧
      (cycleA t r1 r2 s).data.runtime = s.data.runtime ∧
      (cycleA t r1 r2 s).data.alerts = s.data.alerts) ∧
    (∀ (t : Nat) (rs : RandsB) (net : NetOutcome) (s : StateB),
      s.isSyncing = false → s.mode = ModeB.mock →
      (cycleB t rs net s).data.metrics = mockMetricsB rs ∧
      (cycleB t rs net s).data.tree = mockTreeB (mockMetricsB rs)) ∧
    (∀ (t : Nat) (rs : RandsB) (status : Nat) (body : BodyB) (m : MetricsB)
      (s : StateB), s.isSyncing = false → s.mode = ModeB.live →
      200 ≤ status → status < 300 → body.metrics = some m →
      (cycleB t rs (.resp status body) s).data.metrics = m ∧
      (cycleB t rs (.resp status body) s).data.tree = body.tree) ∧
    (∀ (t : Nat) (r1 r2 : ℚ) (s : StateC), s.isSyncing = false →
      s.config.mockMode = true →
      (cycleC t r1 r2 s).data.menuTree = some (mockTreeC (boilerGenC r1)) ∧
      (cycleC t r1 r2 s).data.boilerTemp = toFixed1 (boilerGenC r1) ∧
      (cycleC t r1 r2 s).data.outsideTemp = toFixed1 (outsideGenC r2) ∧
      (cycleC t r1 r2 s).data.boilerSoll = s.data.boilerSoll ∧
      (cycleC t r1 r2 s).data.exhaustTemp = s.data.exhaustTemp ∧
      (cycleC t r1 r2 s).data.runtime = s.data.runtime ∧
      (cycleC t r1 r2 s).data.alerts = s.data.alerts) := by
  refine ⟨?_, ?_, ?_, ?_⟩
  · intro t r1 r2 s h hm
    refine ⟨?_, ?_, ?_, ?_, ?_, ?_⟩ <;>
      simp [cycleA, stepA, beginA, finishA, addLogA, h, hm]
  · intro t rs net s h hm
    refine ⟨?_, ?_⟩ <;>
      simp [cycleB, stepB, beginB, finishB, addLogB, h, hm]
  · intro t rs status body m s h hm h1 h2 hb
    have hok : 200 ≤ status ∧ status < 300 := ⟨h1, h2⟩
    refine ⟨?_, ?_⟩ <;>
      simp [cycleB, stepB, beginB, finishB, addLogB, h, hm, hok, hb]
  · intro t r1 r2 s h hm
    refine ⟨?_, ?_, ?_, ?_, ?_, ?_, ?_⟩ <;>
      simp [cycleC, stepC, beginC, finishC, addLogC, h, hm]

/-- C7 amended witness: wholesale tree replacement and the carried-over
fields evaluated from the initial states, and a live 200 response with
an explicit body for the fetchData variant. -/
theorem c7_amended_wholesale_witness :
    (cycleA 0 0 0 initA).data.menuTree = some (mockTreeA (boilerGenA 0)) ∧
    (cycleA 0 0 0 initA).data.runtime = initA.data.runtime ∧
    (cycleB 0 ⟨0, 0, 0, 0, 0⟩ (.failed "") initB).data.metrics
      = mockMetricsB ⟨0, 0, 0, 0, 0⟩ ∧
    (cycleB 0 ⟨0, 0, 0, 0, 0⟩
        (.resp 200 ⟨some ⟨1, 2, 3, 4, 5, 6⟩, []⟩)
        { initB with mode := ModeB.live }).data.metrics
      = ⟨1, 2, 3, 4, 5, 6⟩ ∧
    (cycleC 0 0 0 initC).data.menuTree = some (mockTreeC (boilerGenC 0)) ∧
    (cycleC 0 0 0 initC).data.exhaustTemp = initC.data.exhaustTemp :=
  ⟨(c7_amended_wholesale.1 0 0 0 initA rfl rfl).1,
    (c7_amended_wholesale.1 0 0 0 initA rfl rfl).2.2.2.2.1,
    (c7_amended_wholesale.2.1 0 ⟨0, 0, 0, 0, 0⟩ (.failed "") initB
      rfl rfl).1,
    (c7_amended_wholesale.2.2.1 0 ⟨0, 0, 0, 0, 0⟩ 200
      ⟨some ⟨1, 2, 3, 4, 5, 6⟩, []⟩ ⟨1, 2, 3, 4, 5, 6⟩
      { initB with mode := ModeB.live } rfl rfl (by norm_num) (by norm_num)
      rfl).1,
    (c7_amended_wholesale.2.2.2 0 0 0 initC rfl rfl).1,
    (c7_amended_wholesale.2.2.2 0 0 0 initC rfl rfl).2.2.2.2.1⟩

/-- C8: in every variant, a configuration change (refresh interval, base
URL or mode) tears down the old timer and installs one whose period is
the new interval times 1000 ms, while leaving the stored data (history
buffer, snapshot, parameter tree), the logs and the last-update field
unchanged; and the immediate re-sync fired by the effect after the
change only appends to the stored history, never resets it. -/
theorem c8_config_change :
    (∀ (c : ConfigA) (s : StateA),
      (applyConfigA c s).data = s.data ∧
      (applyConfigA c s).logs = s.logs ∧
      (applyConfigA c s).lastUpdate = s.lastUpdate ∧
      (applyConfigA c s).timerPeriod = some (c.refreshInterval * 1000) ∧
      (applyConfigA c s).config = c) ∧
    (∀ (url : String) (n : Nat) (m : ModeB) (s : StateB),
      (applyConfigB url n m s).data = s.data ∧
      (applyConfigB url n m s).logs = s.logs ∧
      (applyConfigB url n m s).lastSync = s.lastSync ∧
      (applyConfigB url n m s).timerPeriod = some (n * 1000)) ∧
    (∀ (c : ConfigA) (s : StateC),
      (applyConfigC c s).data = s.data ∧
      (applyConfigC c s).logs = s.logs ∧
      (applyConfigC c s).lastUpdate = s.lastUpdate ∧
      (applyConfigC c s).timerPeriod = some (c.refreshInterval * 1000)) ∧
    (∀ (c : ConfigA) (s : StateA) (t : Nat) (r1 r2 : ℚ),
      s.isSyncing = false → c.mockMode = true →
      (cycleA t r1 r2 (applyConfigA c s)).data.history
        = sliceLast 20
            (s.data.history ++ [⟨t, boilerGenA r1, outsideGenA r2⟩])) := by
  refine ⟨?_, ?_, ?_, ?_⟩
  · intro c s
    exact ⟨rfl, rfl, rfl, rfl, rfl⟩
  · intro url n m s
    exact ⟨rfl, rfl, rfl, rfl⟩
  · intro c s
    exact ⟨rfl, rfl, rfl, rfl⟩
  · intro c s t r1 r2 h hmc
    have h1 : (applyConfigA c s).isSyncing = false := by
      simpa [applyConfigA] using h
    have h2 : (applyConfigA c s).config.mockMode = true := by
      simpa [applyConfigA] using hmc
    rw [cycleA_history_mock _ _ _ _ h1 h2]
    rfl

/-- C8 witness: a concrete interval change on the initial variant A
state, followed by the effect's immediate mock sync. -/
theorem c8_config_change_witness :
    (applyConfigA ⟨"http://proxy.local", 5, true⟩ initA).data
      = initA.data ∧
    (applyConfigA ⟨"http://proxy.local", 5, true⟩ initA).timerPeriod
      = some 5000 ∧
    initA.isSyncing = false ∧
    (cycleA 9 0 0 (applyConfigA ⟨"http://proxy.local", 5, true⟩ initA)).data.history
      = sliceLast 20
          (initA.data.history ++ [⟨9, boilerGenA 0, outsideGenA 0⟩]) :=
  ⟨(c8_config_change.1 ⟨"http://proxy.local", 5, true⟩ initA).1,
    (c8_config_change.1 ⟨"http://proxy.local", 5, true⟩ initA).2.2.2.1,
    rfl,
    c8_config_change.2.2.2 ⟨"http://proxy.local", 5, true⟩ initA 9 0 0
      rfl rfl⟩

/-- C9: a live-mode 2xx response whose body lacks the metrics field makes
the completion handler fault while building the new data; the fault is
caught by the cycle's top-level catch, which appends exactly one generic
error log entry (the TypeError message), and the state stays consistent:
data and lastSync unchanged and the in-flight guard cleared, so the
fault never escapes the completion handler. -/
theorem c9_malformed_response (t : Nat) (rs : RandsB) (status : Nat)
    (body : BodyB) (s : StateB) (h : s.isSyncing = false)
    (hm : s.mode = ModeB.live) (h1 : 200 ≤ status) (h2 : status < 300)
    (hb : body.metrics = none) :
    (cycleB t rs (.resp status body) s).data = s.data ∧
    (cycleB t rs (.resp status body) s).lastSync = s.lastSync ∧
    (cycleB t rs (.resp status body) s).isSyncing = false ∧
    (cycleB t rs (.resp status body) s).logs.head?
      = some ⟨t, "Sync Failed: " ++ jsonFaultMsg, .error⟩ ∧
    (s.logs.length + 2 ≤ 100 →
      countError (cycleB t rs (.resp status body) s).logs
        = countError s.logs + 1) := by
  have hok : 200 ≤ status ∧ status < 300 := ⟨h1, h2⟩
  have hlogs : (cycleB t rs (.resp status body) s).logs
      = addCapped 100 ⟨t, "Sync Failed: " ++ jsonFaultMsg, .error⟩
          (addCapped 100
            ⟨t, "Fetching data from " ++ s.apiUrl ++ "/data.json", .info⟩
            s.logs) := by
    simp [cycleB, stepB, beginB, finishB, catchB, addLogB, h, hm, hok, hb]
  refine ⟨?_, ?_, ?_, ?_, ?_⟩
  · simp [cycleB, stepB, beginB, finishB, catchB, addLogB, h, hm, hok, hb]
  · simp [cycleB, stepB, beginB, finishB, catchB, addLogB, h, hm, hok, hb]
  · simp [cycleB, stepB, beginB, finishB, catchB, addLogB, h, hm, hok, hb]
  · rw [hlogs, addCapped_head 100 (by norm_num)]
  · intro hlen
    rw [hlogs,
      countError_addCapped _ _ _ (by rw [addCapped_length]; omega),
      countError_addCapped _ _ _ (by omega)]
    simp [isErrorEntry]

/-- C9 witness: an HTTP 200 response with a body that has no metrics
field, received in live mode from the initial state. -/
theorem c9_malformed_response_witness :
    ({ initB with mode := ModeB.live } : StateB).isSyncing = false ∧
    (cycleB 4 ⟨0, 0, 0, 0, 0⟩ (.resp 200 ⟨none, []⟩)
        { initB with mode := ModeB.live }).data
      = ({ initB with mode := ModeB.live } : StateB).data ∧
    (cycleB 4 ⟨0, 0, 0, 0, 0⟩ (.resp 200 ⟨none, []⟩)
        { initB with mode := ModeB.live }).logs.head?
      = some ⟨4, "Sync Failed: " ++ jsonFaultMsg, .error⟩ :=
  ⟨rfl,
    (c9_malformed_response 4 ⟨0, 0, 0, 0, 0⟩ 200 ⟨none, []⟩
      { initB with mode := ModeB.live } rfl rfl (by norm_num) (by norm_num)
      rfl).1,
    (c9_malformed_response 4 ⟨0, 0, 0, 0, 0⟩ 200 ⟨none, []⟩
      { initB with mode := ModeB.live } rfl rfl (by norm_num) (by norm_num)
      rfl).2.2.2.1⟩

/-- C10: in the two variants whose live path is unimplemented
(performSync and fetchCycle), a cycle run with the mock flag off issues
no network request at all (the ghost request counter is unchanged; these
variants contain no fetch call) and leaves the data cell (snapshot,
history buffer, parameter tree), the last-update field and the
configuration unchanged; its only effect is to append two log entries,
exactly one of which has severity error, namely the fixed CORS message
advising mock mode or a server-side proxy. -/
theorem c10_unimplemented_live :
    (∀ (t : Nat) (r1 r2 : ℚ) (s : StateA), s.isSyncing = false →
      s.config.mockMode = false →
      (cycleA t r1 r2 s).data = s.data ∧
      (cycleA t r1 r2 s).lastUpdate = s.lastUpdate ∧
      (cycleA t r1 r2 s).fetchCount = s.fetchCount ∧
      (cycleA t r1 r2 s).isSyncing = false ∧
      (cycleA t r1 r2 s).config = s.config ∧
      (cycleA t r1 r2 s).logs
        = addCapped 50 ⟨t, corsMsgA, .error⟩
            (addCapped 50 ⟨t, infoMsgA s.config.apiUrl, .info⟩ s.logs) ∧
      (s.logs.length + 2 ≤ 50 →
        countError (cycleA t r1 r2 s).logs = countError s.logs + 1)) ∧
    (∀ (t : Nat) (r1 r2 : ℚ) (s : StateC), s.isSyncing = false →
      s.config.mockMode = false →
      (cycleC t r1 r2 s).data = s.data ∧
      (cycleC t r1 r2 s).lastUpdate = s.lastUpdate ∧
      (cycleC t r1 r2 s).fetchCount = s.fetchCount ∧
      (cycleC t r1 r2 s).isSyncing = false ∧
      (cycleC t r1 r2 s).config = s.config ∧
      (cycleC t r1 r2 s).logs
        = addCapped 50 ⟨t, corsMsgC, .error⟩
            (addCapped 50 ⟨t, infoMsgC s.config.apiUrl, .info⟩ s.logs) ∧
      (s.logs.length + 2 ≤ 50 →
        countError (cycleC t r1 r2 s).logs = countError s.logs + 1)) := by
  refine ⟨?_, ?_⟩
  · intro t r1 r2 s h hm
    have hlogs : (cycleA t r1 r2 s).logs
        = addCapped 50 ⟨t, corsMsgA, .error⟩
            (addCapped 50 ⟨t, infoMsgA s.config.apiUrl, .info⟩ s.logs) := by
      simp [cycleA, stepA, beginA, finishA, addLogA, h, hm]
    refine ⟨?_, ?_, ?_, ?_, ?_, hlogs, ?_⟩
    · simp [cycleA, stepA, beginA, finishA, addLogA, h, hm]
    · simp [cycleA, stepA, beginA, finishA, addLogA, h, hm]
    · simp [cycleA, stepA, beginA, finishA, addLogA, h, hm]
    · simp [cycleA, stepA, beginA, finishA, addLogA, h, hm]
    · simp [cycleA, stepA, beginA, finishA, addLogA, h, hm]
    · intro hlen
      rw [hlogs,
        countError_addCapped _ _ _ (by rw [addCapped_length]; omega),
        countError_addCapped _ _ _ (by omega)]
      simp [isErrorEntry]
  · intro t r1 r2 s h hm
    have hlogs : (cycleC t r1 r2 s).logs
        = addCapped 50 ⟨t, corsMsgC, .error⟩
            (addCapped 50 ⟨t, infoMsgC s.config.apiUrl, .info⟩ s.logs) := by
      simp [cycleC, stepC, beginC, finishC, addLogC, h, hm]
    refine ⟨?_, ?_, ?_, ?_, ?_, hlogs, ?_⟩
    · simp [cycleC, stepC, beginC, finishC, addLogC, h, hm]
    · simp [cycleC, stepC, beginC, finishC, addLogC, h, hm]
    · simp [cycleC, stepC, beginC, finishC, addLogC, h, hm]
    · simp [cycleC, stepC, beginC, finishC, addLogC, h, hm]
    · simp [cycleC, stepC, beginC, finishC, addLogC, h, hm]
    · intro hlen
      rw [hlogs,
        countError_addCapped _ _ _ (by rw [addCapped_length]; omega),
        countError_addCapped _ _ _ (by omega)]
      simp [isErrorEntry]

/-- C10 witness: the live path of performSync and fetchCycle evaluated
from their initial states with the mock flag switched off. -/
theorem c10_unimplemented_live_witness :
    ({ initA with config :=
        { DEFAULT_CONFIG with mockMode := false } } : StateA).isSyncing
      = false ∧
    (cycleA 1 0 0
        { initA with config :=
          { DEFAULT_CONFIG with mockMode := false } }).data
      = ({ initA with config :=
          { DEFAULT_CONFIG with mockMode := false } } : StateA).data ∧
    (cycleA 1 0 0
        { initA with config :=
          { DEFAULT_CONFIG with mockMode := false } }).fetchCount
      = ({ initA with config :=
          { DEFAULT_CONFIG with mockMode := false } } : StateA).fetchCount ∧
    (cycleC 1 0 0
        { initC with config :=
          { INITIAL_CONFIG with mockMode := false } }).data
      = ({ initC with config :=
          { INITIAL_CONFIG with mockMode := false } } : StateC).data :=
  ⟨rfl,
    (c10_unimplemented_live.1 1 0 0
      { initA with config := { DEFAULT_CONFIG with mockMode := false } }
      rfl rfl).1,
    (c10_unimplemented_live.1 1 0 0
      { initA with config := { DEFAULT_CONFIG with mockMode := false } }
      rfl rfl).2.2.1,
    (c10_unimplemented_live.2 1 0 0
      { initC with config := { INITIAL_CONFIG with mockMode := false } }
      rfl rfl).1⟩

/-- The history point appended by the i-th successful live cycle of
variant B, taken from the response body's metrics. -/
def histPtLiveB (ms : Nat → MetricsB) (i : Nat) : HistPoint :=
  ⟨i, (ms i).boiler, (ms i).outside⟩

/-- N consecutive successful live cycles of variant B from the initial
state switched to live mode: cycle i receives an HTTP 200 response with
a well-formed body (metrics ms i, tree trees i); the random draws are
not consulted on the live path. -/
def runLiveB (ms : Nat → MetricsB) (trees : Nat → List Node) :
    Nat → StateB
  | 0 => { initB with mode := .live }
  | n + 1 =>
    cycleB n ⟨0, 0, 0, 0, 0⟩ (.resp 200 ⟨some (ms n), trees n⟩)
      (runLiveB ms trees n)

theorem cycleB_history_live_ok (t : Nat) (rs : RandsB) (status : Nat)
    (body : BodyB) (m : MetricsB) (s : StateB) (h : s.isSyncing = false)
    (hm : s.mode = ModeB.live) (hok : 200 ≤ status ∧ status < 300)
    (hb : body.metrics = some m) :
    (cycleB t rs (.resp status body) s).data.history
      = sliceLast 20 (s.data.history ++ [⟨t, m.boiler, m.outside⟩]) := by
  simp [cycleB, stepB, beginB, finishB, addLogB, h, hm, hok, hb]

theorem cycleB_head_live_ok (t : Nat) (rs : RandsB) (status : Nat)
    (body : BodyB) (m : MetricsB) (s : StateB) (h : s.isSyncing = false)
    (hm : s.mode = ModeB.live) (hok : 200 ≤ status ∧ status < 300)
    (hb : body.metrics = some m) :
    (cycleB t rs (.resp status body) s).logs.head?
      = some ⟨t, "Data synced successfully from Server", .success⟩ := by
  have hlogs : (cycleB t rs (.resp status body) s).logs
      = addCapped 100 ⟨t, "Data synced successfully from Server", .success⟩
          (addCapped 100
            ⟨t, "Fetching data from " ++ s.apiUrl ++ "/data.json", .info⟩
            s.logs) := by
    simp [cycleB, stepB, beginB, finishB, addLogB, h, hm, hok, hb]
  rw [hlogs, addCapped_head 100 (by norm_num)]

theorem runLiveB_inv (ms : Nat → MetricsB) (trees : Nat → List Node)
    (n : Nat) :
    (runLiveB ms trees n).isSyncing = false ∧
    (runLiveB ms trees n).mode = ModeB.live ∧
    (runLiveB ms trees n).data.history
      = sliceLast 20 ((List.range n).map (histPtLiveB ms)) := by
  induction n with
  | zero =>
    refine ⟨rfl, rfl, ?_⟩
    simp [runLiveB, initB, sliceLast]
  | succ n ih =>
    obtain ⟨h1, h2, h3⟩ := ih
    have hstep : runLiveB ms trees (n + 1)
        = cycleB n ⟨0, 0, 0, 0, 0⟩ (.resp 200 ⟨some (ms n), trees n⟩)
            (runLiveB ms trees n) := rfl
    refine ⟨by rw [hstep]; exact cycleB_isSyncing _ _ _ _ h1,
      by rw [hstep, cycleB_mode _ _ _ _ h1, h2], ?_⟩
    rw [hstep,
      cycleB_history_live_ok _ _ _ _ _ _ h1 h2 (by norm_num) rfl, h3,
      sliceLast_absorb, List.range_succ, List.map_append]
    rfl

/-- C2 counterexample: the claimed fixed capacity 30 of the fetchData
variant fails on its successful live path.  After 21 consecutive
successful live cycles (each an HTTP 200 with a well-formed body, and
indeed logged as success) from the empty history buffer, the buffer
holds 20 points - the live path caps at 20 via slice(-20) - whereas the
claim demands min(21, 30) = 21. -/
theorem c2_counterexample :
    (runLiveB (fun _ => ⟨1, 2, 3, 4, 5, 6⟩) (fun _ => [])
        21).data.history.length = 20 ∧
    (runLiveB (fun _ => ⟨1, 2, 3, 4, 5, 6⟩) (fun _ => []) 21).logs.head?
      = some ⟨20, "Data synced successfully from Server", .success⟩ ∧
    (runLiveB (fun _ => ⟨1, 2, 3, 4, 5, 6⟩) (fun _ => [])
        21).data.history.length ≠ min 21 30 := by
  obtain ⟨h1, h2, h3⟩ :=
    runLiveB_inv (fun _ => ⟨1, 2, 3, 4, 5, 6⟩) (fun _ => []) 21
  have hlen : (runLiveB (fun _ => ⟨1, 2, 3, 4, 5, 6⟩) (fun _ => [])
      21).data.history.length = 20 := by
    rw [h3, sliceLast_length]
    simp
  obtain ⟨g1, g2, g3⟩ :=
    runLiveB_inv (fun _ => ⟨1, 2, 3, 4, 5, 6⟩) (fun _ => []) 20
  refine ⟨hlen, ?_, by rw [hlen]; decide⟩
  rw [show runLiveB (fun _ => ⟨1, 2, 3, 4, 5, 6⟩) (fun _ => []) 21
      = cycleB 20 ⟨0, 0, 0, 0, 0⟩ (.resp 200 ⟨some ⟨1, 2, 3, 4, 5, 6⟩, []⟩)
          (runLiveB (fun _ => ⟨1, 2, 3, 4, 5, 6⟩) (fun _ => []) 20)
    from rfl]
  exact cycleB_head_live_ok 20 _ 200 _ ⟨1, 2, 3, 4, 5, 6⟩ _ g1 g2
    (by norm_num) rfl

/-- C2 amended: for every N consecutive successful sync cycles starting
from an empty history buffer, the buffer length equals min N capacity,
the buffer is exactly the last capacity-many appended points (so the
oldest points are the ones evicted once the capacity is exceeded) and
its entries are strictly chronological by append tick - where the
capacity is fixed per variant and per path: 20 for performSync, 24 for
fetchCycle, and in fetchData 30 for mock cycles but 20 for successful
live cycles (the slice(-20) of its live path). -/
theorem c2_amended_capacity_per_path :
    (∀ (rs : Nat → ℚ × ℚ) (n : Nat),
      (runMockA rs n).data.history.length = min n 20 ∧
      (runMockA rs n).data.history
        = ((List.range n).map (histPtA rs)).drop (n - 20) ∧
      (runMockA rs n).data.history.Pairwise (fun p q => p.time < q.time)) ∧
    (∀ (rs : Nat → RandsB) (n : Nat),
      (runMockB rs n).data.history.length = min n 30 ∧
      (runMockB rs n).data.history
        = ((List.range n).map (histPtB rs)).drop (n - 30) ∧
      (runMockB rs n).data.history.Pairwise (fun p q => p.time < q.time)) ∧
    (∀ (ms : Nat → MetricsB) (trees : Nat → List Node) (n : Nat),
      (runLiveB ms trees n).data.history.length = min n 20 ∧
      (runLiveB ms trees n).data.history
        = ((List.range n).map (histPtLiveB ms)).drop (n - 20) ∧
      (runLiveB ms trees n).data.history.Pairwise
        (fun p q => p.time < q.time)) ∧
    (∀ (rs : Nat → ℚ × ℚ) (n : Nat),
      (runMockC rs n).data.history.length = min n 24 ∧
      (runMockC rs n).data.history
        = ((List.range n).map (histPtC rs)).drop (n - 24) ∧
      (runMockC rs n).data.history.Pairwise (fun p q => p.time < q.time)) := by
  refine ⟨?_, ?_, ?_, ?_⟩
  · intro rs n
    have h3 := (runMockA_inv rs n).2.2
    have hl : ((List.range n).map (histPtA rs)).length = n := by simp
    refine ⟨?_, ?_, ?_⟩
    · rw [h3, sliceLast_length, hl]
    · rw [h3]; unfold sliceLast; rw [hl]
    · rw [h3]; unfold sliceLast; rw [hl]
      exact pairwise_time_drop (fun i => rfl) n (n - 20)
  · intro rs n
    have h3 := (runMockB_inv rs n).2.2
    have hl : ((List.range n).map (histPtB rs)).length = n := by simp
    refine ⟨?_, ?_, ?_⟩
    · rw [h3, sliceLast_length, hl]
    · rw [h3]; unfold sliceLast; rw [hl]
    · rw [h3]; unfold sliceLast; rw [hl]
      exact pairwise_time_drop (fun i => rfl) n (n - 30)
  · intro ms trees n
    have h3 := (runLiveB_inv ms trees n).2.2
    have hl : ((List.range n).map (histPtLiveB ms)).length = n := by simp
    refine ⟨?_, ?_, ?_⟩
    · rw [h3, sliceLast_length, hl]
    · rw [h3]; unfold sliceLast; rw [hl]
    · rw [h3]; unfold sliceLast; rw [hl]
      exact pairwise_time_drop (fun i => rfl) n (n - 20)
  · intro rs n
    have h3 := (runMockC_inv rs n).2.2
    have hl : ((List.range n).map (histPtC rs)).length = n := by simp
    refine ⟨?_, ?_, ?_⟩
    · rw [h3, sliceLast_length, hl]
    · rw [h3]; unfold sliceLast; rw [hl]
    · rw [h3]; unfold sliceLast; rw [hl]
      exact pairwise_time_drop (fun i => rfl) n (n - 24)
